import Mathlib

/-!
Verification of the candidate scoring and ranking engine of the
linkedin-hiring repository: a shallow embedding of
`src/location_service.py` and `src/scoring_engine.py` (with the data
model of `src/models.py`), together with theorems settling the frozen
claims about them.

Modelling conventions:
* Python floats are modelled as `ℚ` (all constants in the source are
  decimal literals, hence exact rationals).
* Python `datetime` values are modelled by a `Date` record carrying the
  `year` and `month` fields the code reads, plus an absolute day count
  `days` standing for the value used by `datetime` subtraction
  (`(a - b).days`) and comparison.
* The three numeric computations that are not rational-arithmetic
  (TF-IDF cosine similarity, keyword extraction via regex + `Counter`,
  and the haversine distance, which is transcendental) are modelled as
  parameters (`Oracle.relevance`, `Oracle.extractKeywords`, and the
  `dist` argument); theorems assume of them only facts that hold for
  the real computations (similarity scaled to [0,100], distance ≥ 0).
* Python truthiness tests (`if job.location`, `if max_distance_miles`,
  `if state`, …) are translated explicitly (`Option.isSome` plus
  non-zero / non-empty checks as applicable).
* String-valued outputs that nothing reads back (`details` messages,
  explanations, recommendations) are elided or simplified; the
  `details` dict of `ScoreComponent` is elided.
-/

namespace LinkedinHiring

/-! ### String helpers (Python `str.lower`, `str.strip`, `in`) -/

/-- `isPrefOf n h` decides whether `n` is a prefix of `h`. -/
def isPrefOf : List Char → List Char → Bool
  | [], _ => true
  | _ :: _, [] => false
  | a :: as, b :: bs => a == b && isPrefOf as bs

/-- `subList n h` decides whether `n` occurs contiguously in `h`. -/
def subList (needle : List Char) : List Char → Bool
  | [] => needle.isEmpty
  | h :: t => isPrefOf needle (h :: t) || subList needle t

/-- Python `needle in hay` substring containment. -/
def strContains (hay needle : String) : Bool := subList needle.data hay.data

/-- Python `str.lower()` (the repository's strings are ASCII). -/
def lowerStr (s : String) : String := ⟨s.data.map Char.toLower⟩

/-- Python `str.strip()`. -/
def stripStr (s : String) : String :=
  ⟨((s.data.dropWhile Char.isWhitespace).reverse.dropWhile Char.isWhitespace).reverse⟩

/-! ### Dates

Models Python `datetime` for exactly the operations the scoring engine
performs on it: reading `.year` and `.month`, subtracting two datetimes
and taking `.days` of the result, and chronological comparison. -/

structure Date where
  year : ℤ
  month : ℤ
  /-- absolute day number; `(a - b).days` is modelled as `a.days - b.days`,
  and `a > b` as `a.days > b.days`. -/
  days : ℤ
  deriving DecidableEq, Repr

/-! ### `location_service.py`: data types -/

inductive LocationMatchType where
  | EXACT_CITY
  | METRO_AREA
  | STATE_MATCH
  | COUNTRY_MATCH
  | WITHIN_RADIUS
  | REMOTE
  | NO_MATCH
  deriving DecidableEq, Repr

structure Coordinates where
  latitude : ℚ
  longitude : ℚ
  deriving DecidableEq, Repr

structure LocationData where
  name : String
  city : String
  state : String
  country : String
  coordinates : Coordinates
  metro_area : Option String := none
  aliases : List String := []
  population : Option ℕ := none
  deriving DecidableEq, Repr

structure LocationMatch where
  match_type : LocationMatchType
  confidence : ℚ
  distance_miles : Option ℚ := none
  matched_location : Option LocationData := none
  details : String := ""
  deriving DecidableEq, Repr

/-! ### `location_service.py`: the location database

`_initialize_location_database` builds a dict keyed by lower-cased city
and "city, state" strings.  The rows below transcribe the `us_cities`
and `international_cities` tuple lists verbatim. -/

structure CityRow where
  city : String
  state : String
  country : String
  lat : ℚ
  lon : ℚ
  population : ℕ
  metro : String

def us_cities : List CityRow := [
  ⟨"San Francisco", "CA", "USA", 37.7749, -122.4194, 875000, "San Francisco Bay Area"⟩,
  ⟨"Los Angeles", "CA", "USA", 34.0522, -118.2437, 4000000, "Los Angeles Metro"⟩,
  ⟨"San Diego", "CA", "USA", 32.7157, -117.1611, 1400000, "San Diego Metro"⟩,
  ⟨"Seattle", "WA", "USA", 47.6062, -122.3321, 750000, "Seattle Metro"⟩,
  ⟨"Portland", "OR", "USA", 45.5152, -122.6784, 650000, "Portland Metro"⟩,
  ⟨"San Jose", "CA", "USA", 37.3382, -121.8863, 1000000, "San Francisco Bay Area"⟩,
  ⟨"New York", "NY", "USA", 40.7128, -74.0060, 8400000, "New York Metro"⟩,
  ⟨"Boston", "MA", "USA", 42.3601, -71.0589, 685000, "Boston Metro"⟩,
  ⟨"Washington", "DC", "USA", 38.9072, -77.0369, 700000, "Washington DC Metro"⟩,
  ⟨"Philadelphia", "PA", "USA", 39.9526, -75.1652, 1600000, "Philadelphia Metro"⟩,
  ⟨"Miami", "FL", "USA", 25.7617, -80.1918, 470000, "Miami Metro"⟩,
  ⟨"Atlanta", "GA", "USA", 33.7490, -84.3880, 500000, "Atlanta Metro"⟩,
  ⟨"Chicago", "IL", "USA", 41.8781, -87.6298, 2700000, "Chicago Metro"⟩,
  ⟨"Dallas", "TX", "USA", 32.7767, -96.7970, 1300000, "Dallas-Fort Worth Metro"⟩,
  ⟨"Houston", "TX", "USA", 29.7604, -95.3698, 2300000, "Houston Metro"⟩,
  ⟨"Austin", "TX", "USA", 30.2672, -97.7431, 950000, "Austin Metro"⟩,
  ⟨"Denver", "CO", "USA", 39.7392, -104.9903, 715000, "Denver Metro"⟩,
  ⟨"Phoenix", "AZ", "USA", 33.4484, -112.0740, 1700000, "Phoenix Metro"⟩,
  ⟨"Las Vegas", "NV", "USA", 36.1699, -115.1398, 650000, "Las Vegas Metro"⟩,
  ⟨"Salt Lake City", "UT", "USA", 40.7608, -111.8910, 200000, "Salt Lake City Metro"⟩,
  ⟨"Nashville", "TN", "USA", 36.1627, -86.7816, 695000, "Nashville Metro"⟩,
  ⟨"Orlando", "FL", "USA", 28.5383, -81.3792, 310000, "Orlando Metro"⟩,
  ⟨"Tampa", "FL", "USA", 27.9506, -82.4572, 385000, "Tampa Bay Metro"⟩,
  ⟨"Charlotte", "NC", "USA", 35.2271, -80.8431, 875000, "Charlotte Metro"⟩,
  ⟨"Raleigh", "NC", "USA", 35.7796, -78.6382, 470000, "Raleigh-Durham Metro"⟩,
  ⟨"Richmond", "VA", "USA", 37.5407, -77.4360, 230000, "Richmond Metro"⟩,
  ⟨"Baltimore", "MD", "USA", 39.2904, -76.6122, 585000, "Baltimore Metro"⟩,
  ⟨"Pittsburgh", "PA", "USA", 40.4406, -79.9959, 300000, "Pittsburgh Metro"⟩,
  ⟨"Cleveland", "OH", "USA", 41.4993, -81.6944, 385000, "Cleveland Metro"⟩,
  ⟨"Detroit", "MI", "USA", 42.3314, -83.0458, 670000, "Detroit Metro"⟩,
  ⟨"Columbus", "OH", "USA", 39.9612, -82.9988, 900000, "Columbus Metro"⟩,
  ⟨"Indianapolis", "IN", "USA", 39.7684, -86.1581, 875000, "Indianapolis Metro"⟩,
  ⟨"Milwaukee", "WI", "USA", 43.0389, -87.9065, 590000, "Milwaukee Metro"⟩,
  ⟨"Minneapolis", "MN", "USA", 44.9778, -93.2650, 430000, "Minneapolis-St. Paul Metro"⟩,
  ⟨"Kansas City", "MO", "USA", 39.0997, -94.5786, 495000, "Kansas City Metro"⟩,
  ⟨"St. Louis", "MO", "USA", 38.6270, -90.1994, 300000, "St. Louis Metro"⟩,
  ⟨"New Orleans", "LA", "USA", 29.9511, -90.0715, 390000, "New Orleans Metro"⟩,
  ⟨"San Antonio", "TX", "USA", 29.4241, -98.4936, 1500000, "San Antonio Metro"⟩,
  ⟨"Oklahoma City", "OK", "USA", 35.4676, -97.5164, 695000, "Oklahoma City Metro"⟩,
  ⟨"Tulsa", "OK", "USA", 36.1540, -95.9928, 415000, "Tulsa Metro"⟩,
  ⟨"Little Rock", "AR", "USA", 34.7465, -92.2896, 198000, "Little Rock Metro"⟩,
  ⟨"Memphis", "TN", "USA", 35.1495, -90.0490, 650000, "Memphis Metro"⟩,
  ⟨"Birmingham", "AL", "USA", 33.5186, -86.8104, 210000, "Birmingham Metro"⟩,
  ⟨"Jacksonville", "FL", "USA", 30.3322, -81.6557, 950000, "Jacksonville Metro"⟩,
  ⟨"Buffalo", "NY", "USA", 42.8864, -78.8784, 255000, "Buffalo Metro"⟩,
  ⟨"Rochester", "NY", "USA", 43.1566, -77.6088, 206000, "Rochester Metro"⟩,
  ⟨"Albany", "NY", "USA", 42.6526, -73.7562, 98000, "Albany Metro"⟩,
  ⟨"Providence", "RI", "USA", 41.8240, -71.4128, 180000, "Providence Metro"⟩,
  ⟨"Hartford", "CT", "USA", 41.7658, -72.6734, 122000, "Hartford Metro"⟩,
  ⟨"Bridgeport", "CT", "USA", 41.1865, -73.1952, 145000, "Bridgeport Metro"⟩]

def international_cities : List CityRow := [
  ⟨"Toronto", "ON", "Canada", 43.6532, -79.3832, 2930000, "Greater Toronto Area"⟩,
  ⟨"Vancouver", "BC", "Canada", 49.2827, -123.1207, 675000, "Metro Vancouver"⟩,
  ⟨"Montreal", "QC", "Canada", 45.5017, -73.5673, 1780000, "Montreal Metro"⟩,
  ⟨"London", "", "United Kingdom", 51.5074, -0.1278, 9000000, "Greater London"⟩,
  ⟨"Berlin", "", "Germany", 52.5200, 13.4050, 3700000, "Berlin Metro"⟩,
  ⟨"Paris", "", "France", 48.8566, 2.3522, 2100000, "Île-de-France"⟩,
  ⟨"Amsterdam", "", "Netherlands", 52.3676, 4.9041, 870000, "Amsterdam Metro"⟩,
  ⟨"Dublin", "", "Ireland", 53.3498, -6.2603, 555000, "Dublin Metro"⟩,
  ⟨"Sydney", "NSW", "Australia", -33.8688, 151.2093, 5300000, "Greater Sydney"⟩,
  ⟨"Melbourne", "VIC", "Australia", -37.8136, 144.9631, 5000000, "Greater Melbourne"⟩,
  ⟨"Tel Aviv", "", "Israel", 32.0853, 34.7818, 460000, "Tel Aviv Metro"⟩,
  ⟨"Tokyo", "", "Japan", 35.6762, 139.6503, 14000000, "Greater Tokyo"⟩,
  ⟨"Singapore", "", "Singapore", 1.3521, 103.8198, 5900000, "Singapore"⟩,
  ⟨"Hong Kong", "", "Hong Kong", 22.3193, 114.1694, 7500000, "Hong Kong"⟩,
  ⟨"Bangalore", "KA", "India", 12.9716, 77.5946, 8400000, "Bangalore Metro"⟩,
  ⟨"Mumbai", "MH", "India", 19.0760, 72.8777, 12400000, "Mumbai Metro"⟩,
  ⟨"Hyderabad", "TG", "India", 17.3850, 78.4867, 6900000, "Hyderabad Metro"⟩,
  ⟨"Pune", "MH", "India", 18.5204, 73.8567, 3100000, "Pune Metro"⟩,
  ⟨"Chennai", "TN", "India", 13.0827, 80.2707, 4600000, "Chennai Metro"⟩]

/-- `_generate_aliases`' fixed `alias_map`. -/
def alias_map : List (String × List String) := [
  ("San Francisco", ["SF", "San Fran", "The City"]),
  ("New York", ["NYC", "New York City", "Manhattan"]),
  ("Los Angeles", ["LA", "Los Angeles"]),
  ("Washington", ["DC", "Washington DC", "Washington D.C."]),
  ("Las Vegas", ["Vegas"]),
  ("Salt Lake City", ["SLC"]),
  ("Kansas City", ["KC"]),
  ("St. Louis", ["Saint Louis"]),
  ("New Orleans", ["NOLA"]),
  ("San Antonio", ["SA"]),
  ("Oklahoma City", ["OKC"])]

/-- `_generate_aliases(city, state, country)` (only `city` is consulted). -/
def _generate_aliases (city : String) : List String :=
  (((alias_map.find? fun p => p.1 == city).map Prod.snd).getD [])

/-- The `LocationData` built for one row of the city tables. -/
def mkLocationData (r : CityRow) : LocationData :=
  { name := r.city, city := r.city, state := r.state, country := r.country,
    coordinates := { latitude := r.lat, longitude := r.lon },
    metro_area := some r.metro, population := some r.population,
    aliases := _generate_aliases r.city }

/-- Python dict assignment `d[k] = v`: updates in place (keeping the key's
iteration position) when the key exists, else appends. -/
def dictInsert (d : List (String × LocationData)) (k : String) (v : LocationData) :
    List (String × LocationData) :=
  if d.any fun p => p.1 == k then d.map fun p => if p.1 == k then (k, v) else p
  else d ++ [(k, v)]

/-- The three `self.locations[...] = location` assignments done per city
(the third only when `state` is non-empty). -/
def addCity (d : List (String × LocationData)) (r : CityRow) : List (String × LocationData) :=
  let loc := mkLocationData r
  let d1 := dictInsert d (lowerStr r.city) loc
  let d2 := dictInsert d1 (lowerStr r.city ++ ", " ++ lowerStr r.state) loc
  if r.state == "" then d2
  else dictInsert d2 (lowerStr (lowerStr r.city ++ ", " ++ r.state)) loc

/-- `self.locations` after `_initialize_location_database`, as an ordered
association list (Python dicts preserve insertion order). -/
def locationsDB : List (String × LocationData) :=
  (us_cities ++ international_cities).foldl addCity []

/-! ### `location_service.py`: `parse_location` and `match_location` -/

/-- `LocationService.parse_location`: direct key lookup, then substring
containment either way against keys in insertion order, then alias
containment against values in insertion order. -/
def parse_location (location_text : String) : Option LocationData :=
  if location_text == "" then none
  else
    let t := lowerStr (stripStr location_text)
    match locationsDB.find? fun p => p.1 == t with
    | some p => some p.2
    | none =>
      match locationsDB.find? fun p => strContains p.1 t || strContains t p.1 with
      | some p => some p.2
      | none =>
        match (locationsDB.map Prod.snd).find? fun l =>
            l.aliases.any fun a => strContains t (lowerStr a) with
        | some l => some l
        | none => none

def remote_keywords : List String :=
  ["remote", "work from home", "wfh", "distributed", "anywhere", "global"]

/-- Python truthiness of an `Optional[str]`. -/
def truthyOptStr : Option String → Bool
  | some s => !(s == "")
  | none => false

/-- `if match.confidence > best_match.confidence: best_match = match`. -/
def considerMatch (best m : LocationMatch) : LocationMatch :=
  if best.confidence < m.confidence then m else best

/-- The metro-area / same-state / same-country `elif` chain of
`match_location`'s loop body: each branch builds its `LocationMatch` and
keeps it only when its confidence beats the running best. -/
def loopStepA (cand rd : LocationData) (hybrid_allowed : Bool)
    (best : LocationMatch) : LocationMatch :=
  if truthyOptStr cand.metro_area && truthyOptStr rd.metro_area &&
      cand.metro_area == rd.metro_area then
    considerMatch best
      { match_type := .METRO_AREA, confidence := 90,
        matched_location := some rd, details := "Metro area match" }
  else if !(cand.state == "") && !(rd.state == "") &&
      lowerStr cand.state == lowerStr rd.state &&
      cand.country == "USA" && rd.country == "USA" then
    considerMatch best
      { match_type := .STATE_MATCH,
        confidence := (if hybrid_allowed then 70 else 50),
        matched_location := some rd, details := "Same state" }
  else if cand.country == rd.country then
    considerMatch best
      { match_type := .COUNTRY_MATCH,
        confidence := (if hybrid_allowed then 40 else 30),
        matched_location := some rd, details := "Same country" }
  else best

/-- The distance-based part of `match_location`'s loop body (a separate
`if`, not an `elif`): when a radius is set (Python truthiness: non-zero)
and the distance is within it, the WITHIN_RADIUS match with confidence
`max 60 (100 − distance/radius × 40)` competes with the running best. -/
def loopStepB (dist : Coordinates → Coordinates → ℚ) (cand rd : LocationData)
    (max_distance_miles : Option ℤ) (best : LocationMatch) : LocationMatch :=
  match max_distance_miles with
  | some m =>
    if m == 0 then best
    else
      if dist cand.coordinates rd.coordinates ≤ (m : ℚ) then
        considerMatch best
          { match_type := .WITHIN_RADIUS,
            confidence := max 60 (100 - dist cand.coordinates rd.coordinates / (m : ℚ) * 40),
            distance_miles := some (dist cand.coordinates rd.coordinates),
            matched_location := some rd, details := "Within radius" }
      else best
  | none => best

/-- The `for req_location in required_locations` loop of `match_location`,
with `best` the running `best_match`.  `dist` stands for
`calculate_distance` (haversine), which is transcendental and therefore
kept as a parameter. -/
def match_location_loop (dist : Coordinates → Coordinates → ℚ) (cand : LocationData)
    (remote_allowed hybrid_allowed : Bool) (max_distance_miles : Option ℤ) :
    List String → LocationMatch → LocationMatch
  | [], best => best
  | req :: rest, best =>
    if lowerStr req == "remote" && remote_allowed then
      { match_type := .REMOTE, confidence := 100, details := "Remote work allowed" }
    else
      match parse_location req with
      | none => match_location_loop dist cand remote_allowed hybrid_allowed
          max_distance_miles rest best
      | some rd =>
        if lowerStr cand.city == lowerStr rd.city && lowerStr cand.state == lowerStr rd.state then
          { match_type := .EXACT_CITY, confidence := 100, matched_location := some rd,
            details := "Exact match" }
        else
          match_location_loop dist cand remote_allowed hybrid_allowed
            max_distance_miles rest
            (loopStepB dist cand rd max_distance_miles (loopStepA cand rd hybrid_allowed best))

/-- `LocationService.match_location` (the body strips
`candidate_location` once and then reads the stripped value; `stripStr`
is pure, so inlining it is equivalent). -/
def match_location (dist : Coordinates → Coordinates → ℚ) (candidate_location : String)
    (required_locations : List String) (remote_allowed hybrid_allowed : Bool)
    (max_distance_miles : Option ℤ) : LocationMatch :=
  if candidate_location == "" then
    { match_type := .NO_MATCH, confidence := 0, details := "No candidate location provided" }
  else
    if remote_keywords.any fun k => strContains (lowerStr (stripStr candidate_location)) k then
      if remote_allowed then
        { match_type := .REMOTE, confidence := 100,
          details := "Remote candidate matches remote job" }
      else
        { match_type := .NO_MATCH, confidence := 20,
          details := "Remote candidate but remote work not allowed" }
    else
      match parse_location (stripStr candidate_location) with
      | none =>
        { match_type := .NO_MATCH, confidence := 10,
          details := "Could not parse candidate location" }
      | some cand =>
        match_location_loop dist cand remote_allowed hybrid_allowed max_distance_miles
          required_locations { match_type := .NO_MATCH, confidence := 0 }

/-! ### `models.py`: the data model (fields the engine reads) -/

inductive EducationLevel where
  | HIGH_SCHOOL
  | ASSOCIATE
  | BACHELOR
  | MASTER
  | PHD
  | PROFESSIONAL
  deriving DecidableEq, Repr

structure ExperienceRequirement where
  min_years : ℤ
  max_years : Option ℤ := none
  deriving DecidableEq, Repr

structure EducationRequirement where
  level : EducationLevel
  fields : List String := []
  required : Bool := true
  deriving DecidableEq, Repr

structure LocationRequirement where
  cities : List String := []
  states : List String := []
  countries : List String := []
  remote : Bool := false
  hybrid : Bool := false
  max_distance_miles : Option ℤ := none
  strict_location_filter : Bool := false
  location_weight_multiplier : ℚ := 1
  deriving DecidableEq, Repr

structure ParsedJobDescription where
  required_skills : List String := []
  preferred_skills : List String := []
  experience : Option ExperienceRequirement := none
  education : Option EducationRequirement := none
  location : Option LocationRequirement := none
  industry_experience : List String := []
  job_description_text : String := ""
  deriving DecidableEq, Repr

structure Experience where
  title : String
  company : String
  start_date : Option Date := none
  end_date : Option Date := none
  is_current : Bool := false
  description : String := ""
  deriving DecidableEq, Repr

structure Education where
  degree : String
  field : String
  school : String
  deriving DecidableEq, Repr

structure CandidateProfile where
  linkedin_id : String
  headline : String := ""
  location : String := ""
  summary : String := ""
  experiences : List Experience := []
  education : List Education := []
  skills : List String := []
  deriving DecidableEq, Repr

structure ScoreComponent where
  name : String
  weight : ℚ
  raw_score : ℚ
  weighted_score : ℚ
  deriving DecidableEq, Repr

structure CandidateScore where
  candidate_id : String
  job_description_id : String
  overall_score : ℚ
  components : List ScoreComponent
  confidence_level : ℚ
  deriving DecidableEq, Repr

structure RankedCandidate where
  profile : CandidateProfile
  score : CandidateScore
  rank : ℕ
  percentile : ℚ
  deriving DecidableEq, Repr

/-! ### `scoring_engine.py`: weights and environment -/

/-- The scoring weight map.  The Python dict is used with exactly these
seven keys; `_validate_weights` sums its values. -/
structure Weights where
  skill_match : ℚ
  experience_match : ℚ
  education_match : ℚ
  industry_match : ℚ
  location_match : ℚ
  career_trajectory : ℚ
  keyword_density : ℚ
  deriving DecidableEq, Repr

def DEFAULT_WEIGHTS : Weights :=
  { skill_match := 0.30, experience_match := 0.20, education_match := 0.15,
    industry_match := 0.15, location_match := 0.10, career_trajectory := 0.05,
    keyword_density := 0.05 }

/-- `sum(self.weights.values())`. -/
def sumWeights (w : Weights) : ℚ :=
  w.skill_match + w.experience_match + w.education_match + w.industry_match +
    w.location_match + w.career_trajectory + w.keyword_density

/-- `ScoringEngine.__init__` + `_validate_weights`: keeps the supplied
weights (`weights or DEFAULT_WEIGHTS`) and raises `ValueError` unless
`0.99 <= sum <= 1.01`; weights are never renormalized. -/
def mkScoringEngine (weights : Option Weights) : Except Unit Weights :=
  let w := weights.getD DEFAULT_WEIGHTS
  if 0.99 ≤ sumWeights w ∧ sumWeights w ≤ 1.01 then Except.ok w else Except.error ()

/-- The non-rational ingredients of the scoring pipeline, kept abstract:
the wall clock (`datetime.now()`), the TF-IDF cosine-similarity body of
`_calculate_experience_relevance` (already scaled to [0,100], including
its 50 defaults), and `_extract_keywords` (regex + `Counter`). -/
structure Oracle where
  now : Date
  relevance : ParsedJobDescription → CandidateProfile → ℚ
  extractKeywords : String → List String

/-! ### `scoring_engine.py`: helper methods -/

/-- `_is_related_skill`'s fixed `skill_relations` table. -/
def skill_relations : List (String × List String) := [
  ("javascript", ["typescript", "node.js", "react", "angular", "vue"]),
  ("python", ["django", "flask", "fastapi", "pandas", "numpy"]),
  ("java", ["spring", "hibernate", "maven", "gradle"]),
  ("cloud", ["aws", "azure", "gcp", "devops"]),
  ("machine learning", ["tensorflow", "pytorch", "scikit-learn", "deep learning", "ai"])]

def _is_related_skill (skill1 skill2 : String) : Bool :=
  skill_relations.any fun p =>
    (skill1 == p.1 && p.2.contains skill2) || (skill2 == p.1 && p.2.contains skill1)

/-- `_extract_skills_from_experience`'s fixed keyword list. -/
def skill_keywords : List String :=
  ["python", "java", "javascript", "typescript", "react", "angular",
   "node.js", "django", "flask", "spring", "docker", "kubernetes",
   "aws", "azure", "gcp", "sql", "nosql", "mongodb", "postgresql"]

/-- `_extract_skills_from_experience`: the set of fixed keywords occurring
in some experience description (as a list; only membership is consumed). -/
def _extract_skills_from_experience (candidate : CandidateProfile) : List String :=
  skill_keywords.filter fun kw =>
    candidate.experiences.any fun exp => strContains (lowerStr exp.description) kw

/-- `_calculate_total_experience` (years as a rational). -/
def _calculate_total_experience (o : Oracle) (candidate : CandidateProfile) : ℚ :=
  let total_months := candidate.experiences.foldl
    (fun acc exp =>
      match exp.start_date with
      | some sd =>
        let e := exp.end_date.getD o.now
        acc + max 0 ((e.year - sd.year) * 12 + (e.month - sd.month))
      | none => acc) 0
  (total_months : ℚ) / 12

/-- `_calculate_experience_relevance`: 0 without experiences, otherwise the
TF-IDF cosine-similarity computation (`Oracle.relevance`, which covers the
`try` block including its empty-text and exception defaults of 50). -/
def _calculate_experience_relevance (o : Oracle) (job : ParsedJobDescription)
    (candidate : CandidateProfile) : ℚ :=
  if candidate.experiences.isEmpty then 0 else o.relevance job candidate

/-- `_calculate_experience_recency`'s most-recent-end-date scan
(`exp.end_date > most_recent` keeps the first of equal dates). -/
def mostRecentEnd (candidate : CandidateProfile) : Option Date :=
  candidate.experiences.foldl
    (fun acc exp =>
      match exp.end_date with
      | some d =>
        match acc with
        | none => some d
        | some m => if m.days < d.days then some d else some m
      | none => acc) none

/-- The recency tiers applied to the months since the last end date. -/
def recencyFromGap (months_gap : ℚ) : ℚ :=
  if months_gap < 3 then 95
  else if months_gap < 6 then 85
  else if months_gap < 12 then 70
  else max 30 (100 - months_gap * 2)

/-- The branch of `_calculate_experience_recency` on the most recent end
date (50 when none exists). -/
def recencyFromMostRecent (o : Oracle) : Option Date → ℚ
  | none => 50
  | some d => recencyFromGap (((o.now.days - d.days : ℤ) : ℚ) / 30)

/-- `_calculate_experience_recency`. -/
def _calculate_experience_recency (o : Oracle) (candidate : CandidateProfile) : ℚ :=
  if candidate.experiences.isEmpty then 0
  else if candidate.experiences.any fun exp => exp.is_current then 100
  else recencyFromMostRecent o (mostRecentEnd candidate)

/-- `_calculate_career_progression`'s `seniority_keywords` dict. -/
def seniority_keyword_levels : List (String × ℕ) :=
  [("junior", 1), ("associate", 2), ("mid", 3), ("senior", 4),
   ("lead", 5), ("principal", 6), ("manager", 7), ("director", 8)]

/-- `max([v for k, v in seniority_keywords.items() if k in title], default=3)`. -/
def titleSeniorityLevel (title : String) : ℕ :=
  match (seniority_keyword_levels.filter fun p => strContains title p.1).map Prod.snd with
  | [] => 3
  | v :: vs => vs.foldl max v

def _calculate_career_progression (candidate : CandidateProfile) : ℚ :=
  if candidate.experiences.length < 2 then 50
  else
    let pairs := candidate.experiences.zip candidate.experiences.tail
    let bumps := (pairs.filter fun p =>
      titleSeniorityLevel (lowerStr p.2.title) < titleSeniorityLevel (lowerStr p.1.title)).length
    min (50 + 10 * (bumps : ℚ)) 100

/-- `_is_advancement`'s `seniority_keywords` list. -/
def advancement_keywords : List String :=
  ["senior", "lead", "principal", "manager", "director", "vp"]

def _is_advancement (previous current : Experience) : Bool :=
  let prevN := (advancement_keywords.filter fun k => strContains (lowerStr previous.title) k).length
  let currN := (advancement_keywords.filter fun k => strContains (lowerStr current.title) k).length
  prevN < currN

/-- `_calculate_employment_gaps` (months, `int()`-truncated; the sum is a
sum of gaps each `> 1`, hence non-negative, so truncation is `⌊·⌋`). -/
def _calculate_employment_gaps (candidate : CandidateProfile) : ℤ :=
  if candidate.experiences.length < 2 then 0
  else
    let pairs := candidate.experiences.zip candidate.experiences.tail
    let total : ℚ := pairs.foldl
      (fun acc p =>
        match p.1.start_date, p.2.end_date with
        | some sd, some ed =>
          let gap : ℚ := ((sd.days - ed.days : ℤ) : ℚ) / 30
          if 1 < gap then acc + gap else acc
        | _, _ => acc) 0
    ⌊total⌋

/-- `_calculate_average_tenure` (years). -/
def _calculate_average_tenure (o : Oracle) (candidate : CandidateProfile) : ℚ :=
  let r := candidate.experiences.foldl
    (fun acc exp =>
      match exp.start_date with
      | some sd =>
        let e := exp.end_date.getD o.now
        (acc.1 + max 0 ((e.year - sd.year) * 12 + (e.month - sd.month)), acc.2 + 1)
      | none => acc) ((0 : ℤ), (0 : ℕ))
  if 0 < r.2 then (r.1 : ℚ) / 12 / (r.2 : ℚ) else 0

/-- `_get_highest_education_level`: `education_keywords` in dict order, with
`hierarchy_values.get(level, 0)`. -/
def education_keyword_levels : List (String × EducationLevel) :=
  [("phd", .PHD), ("doctorate", .PHD), ("master", .MASTER), ("mba", .MASTER),
   ("bachelor", .BACHELOR), ("associate", .ASSOCIATE)]

def hierarchy_values : EducationLevel → ℕ
  | .ASSOCIATE => 2
  | .BACHELOR => 3
  | .MASTER => 4
  | .PHD => 5
  | _ => 0

def _get_highest_education_level (candidate : CandidateProfile) : Option EducationLevel :=
  candidate.education.foldl
    (fun highest edu =>
      education_keyword_levels.foldl
        (fun highest p =>
          if strContains (lowerStr edu.degree) p.1 then
            match highest with
            | none => some p.2
            | some h => if hierarchy_values h < hierarchy_values p.2 then some p.2 else highest
          else highest) highest) none

/-- `_score_education_field`. -/
def _score_education_field (required_fields : List String) (education : List Education) : ℚ :=
  if required_fields.isEmpty || education.isEmpty then 75
  else if education.any fun edu => required_fields.any fun rf =>
      strContains (lowerStr edu.field) (lowerStr rf) ||
      strContains (lowerStr rf) (lowerStr edu.field) then 100
  else 30

/-- `_extract_industries`' fixed keyword list. -/
def industry_keywords : List String :=
  ["fintech", "healthcare", "e-commerce", "saas", "education",
   "gaming", "social media", "cybersecurity", "ai", "blockchain"]

/-- `_extract_industries`: fixed keywords occurring in some experience's
company+description text (as a list; only membership is consumed). -/
def _extract_industries (candidate : CandidateProfile) : List String :=
  industry_keywords.filter fun kw =>
    candidate.experiences.any fun exp =>
      strContains (lowerStr (exp.company ++ " " ++ exp.description)) kw

/-- `_get_candidate_text`. -/
def _get_candidate_text (candidate : CandidateProfile) : String :=
  String.intercalate " "
    ([candidate.headline, candidate.summary] ++
      candidate.experiences.foldr (fun exp acc => exp.title :: exp.description :: acc) [])

/-- `_calculate_confidence`. -/
def _calculate_confidence (candidate : CandidateProfile) : ℚ :=
  let c : ℚ := 1
  let c := if candidate.summary == "" then c - 0.1 else c
  let c := if candidate.experiences.isEmpty then c - 0.3 else c
  let c := if candidate.skills.isEmpty then c - 0.2 else c
  let c := if candidate.education.isEmpty then c - 0.1 else c
  max 0.3 c

/-! ### `scoring_engine.py`: the seven component scorers

Each scorer computes a raw score and wraps it in a `ScoreComponent` with
`weighted_score = raw_score × weight`; the raw-score computations are
named definitions so the bound proofs can speak about them. -/

def required_skills_of (job : ParsedJobDescription) : List String :=
  (job.required_skills.map lowerStr).dedup

def preferred_skills_of (job : ParsedJobDescription) : List String :=
  (job.preferred_skills.map lowerStr).dedup

/-- `candidate_skills` of `_score_skills`: the lower-cased skill set plus
the skills extracted from experience descriptions. -/
def candidate_skills_of (candidate : CandidateProfile) : List String :=
  ((candidate.skills.map lowerStr) ++ _extract_skills_from_experience candidate).dedup

/-- One iteration of the required-skills loop: exact match counts 1,
related 0.6, substring-partial 0.4 (accumulated as (matches, partials)). -/
def requiredSkillStep (candidate_skills : List String) (acc : ℕ × ℚ) (req : String) :
    ℕ × ℚ :=
  if candidate_skills.contains req then (acc.1 + 1, acc.2)
  else if candidate_skills.any fun c => _is_related_skill req c then (acc.1, acc.2 + 0.6)
  else if candidate_skills.any fun c => strContains c req || strContains req c then
    (acc.1, acc.2 + 0.4)
  else acc

/-- One iteration of the preferred-skills loop: exact 0.5, related 0.3. -/
def preferredSkillStep (candidate_skills : List String) (acc : ℚ) (pref : String) : ℚ :=
  if candidate_skills.contains pref then acc + 0.5
  else if candidate_skills.any fun c => _is_related_skill pref c then acc + 0.3
  else acc

/-- The skill component's raw score: required part scaled to 80 (80 if no
required skills), preferred part scaled to 20 (0 if none). -/
def skillRawScore (job : ParsedJobDescription) (candidate : CandidateProfile) : ℚ :=
  let r := (required_skills_of job).foldl
    (requiredSkillStep (candidate_skills_of candidate)) ((0 : ℕ), (0 : ℚ))
  let preferred_matches := (preferred_skills_of job).foldl
    (preferredSkillStep (candidate_skills_of candidate)) (0 : ℚ)
  (if (required_skills_of job).isEmpty then 80
    else (((r.1 : ℚ) + r.2) / ((required_skills_of job).length : ℚ)) * 80) +
  (if (preferred_skills_of job).isEmpty then 0
    else (preferred_matches / ((preferred_skills_of job).length : ℚ)) * 20)

/-- `_score_skills` (`details` dict elided). -/
def _score_skills (w : Weights) (job : ParsedJobDescription)
    (candidate : CandidateProfile) : ScoreComponent :=
  { name := "skill_match", weight := w.skill_match,
    raw_score := skillRawScore job candidate,
    weighted_score := skillRawScore job candidate * w.skill_match }

/-- The qualified branch of the years score on `max_years`.  Note the
Python truthiness test `if job.experience.max_years` treats
`max_years = 0` like `None`. -/
def maxYearsScore (total_years : ℚ) : Option ℤ → ℚ
  | some mx =>
    if mx == 0 then 100
    else if total_years ≤ (mx : ℚ) then 100
    else max 70 (100 - (total_years - (mx : ℚ)) * 5)
  | none => 100

/-- The years-of-experience score given the experience requirement. -/
def yearsScoreFrom (total_years : ℚ) : Option ExperienceRequirement → ℚ
  | none => 80
  | some e =>
    if (e.min_years : ℚ) ≤ total_years then maxYearsScore total_years e.max_years
    else max 0 (100 - ((e.min_years : ℚ) - total_years) * 20)

/-- The years-of-experience score of `_score_experience`. -/
def yearsScore (o : Oracle) (job : ParsedJobDescription)
    (candidate : CandidateProfile) : ℚ :=
  yearsScoreFrom (_calculate_total_experience o candidate) job.experience

/-- The experience component's raw score: years 0.4, relevance 0.35,
recency 0.15, progression 0.10. -/
def experienceRawScore (o : Oracle) (job : ParsedJobDescription)
    (candidate : CandidateProfile) : ℚ :=
  yearsScore o job candidate * 0.4 +
    _calculate_experience_relevance o job candidate * 0.35 +
    _calculate_experience_recency o candidate * 0.15 +
    _calculate_career_progression candidate * 0.10

/-- `_score_experience` (`details` dict elided). -/
def _score_experience (w : Weights) (o : Oracle) (job : ParsedJobDescription)
    (candidate : CandidateProfile) : ScoreComponent :=
  { name := "experience_match", weight := w.experience_match,
    raw_score := experienceRawScore o job candidate,
    weighted_score := experienceRawScore o job candidate * w.experience_match }

/-- `education_hierarchy` of `_score_education` (all six levels present). -/
def education_hierarchy : EducationLevel → ℕ
  | .HIGH_SCHOOL => 1
  | .ASSOCIATE => 2
  | .BACHELOR => 3
  | .MASTER => 4
  | .PHD => 5
  | .PROFESSIONAL => 4

/-- The education level score on the candidate's (optional) highest
level. -/
def levelScoreOf (job_edu : EducationRequirement) : Option EducationLevel → ℚ
  | some cl =>
    if education_hierarchy job_edu.level ≤ education_hierarchy cl then 100
    else max 0 (100 -
      ((education_hierarchy job_edu.level : ℚ) - (education_hierarchy cl : ℚ)) * 25)
  | none => if job_edu.required then 0 else 50

/-- The education level score of `_score_education`. -/
def educationLevelScore (job_edu : EducationRequirement)
    (candidate : CandidateProfile) : ℚ :=
  levelScoreOf job_edu (_get_highest_education_level candidate)

/-- The education component's raw score given the (optional) education
requirement (100 when there is none). -/
def educationRawFrom (candidate : CandidateProfile) : Option EducationRequirement → ℚ
  | none => 100
  | some edu =>
    educationLevelScore edu candidate * 0.6 +
      _score_education_field edu.fields candidate.education * 0.4

/-- The education component's raw score. -/
def educationRawScore (job : ParsedJobDescription) (candidate : CandidateProfile) : ℚ :=
  educationRawFrom candidate job.education

/-- `_score_education` (`details` dict elided). -/
def _score_education (w : Weights) (job : ParsedJobDescription)
    (candidate : CandidateProfile) : ScoreComponent :=
  { name := "education_match", weight := w.education_match,
    raw_score := educationRawScore job candidate,
    weighted_score := educationRawScore job candidate * w.education_match }

/-- The industry component's raw score (100 when the job lists no
industries). -/
def industryRawScore (job : ParsedJobDescription) (candidate : CandidateProfile) : ℚ :=
  if job.industry_experience.isEmpty then 100
  else
    (((job.industry_experience.filter fun req =>
        (_extract_industries candidate).any fun ci =>
          strContains (lowerStr ci) (lowerStr req)).length : ℚ) /
      (job.industry_experience.length : ℚ)) * 100

/-- `_score_industry` (`details` dict elided). -/
def _score_industry (w : Weights) (job : ParsedJobDescription)
    (candidate : CandidateProfile) : ScoreComponent :=
  { name := "industry_match", weight := w.industry_match,
    raw_score := industryRawScore job candidate,
    weighted_score := industryRawScore job candidate * w.industry_match }

/-- The location-critical amplification of `_score_location`: multiplied
above 80 (capped at 100), divided below 40 (floored at 0), untouched in
(40, 80); no-op when the multiplier is exactly 1. -/
def amplifyConfidence (mult raw0 : ℚ) : ℚ :=
  if mult == 1 then raw0
  else if 80 ≤ raw0 then min 100 (raw0 * mult)
  else if raw0 ≤ 40 then max 0 (raw0 / mult)
  else raw0

/-- The location component's raw score given the (optional) location
requirement (100 when there is none). -/
def locationRawFrom (dist : Coordinates → Coordinates → ℚ) (candidate_location : String) :
    Option LocationRequirement → ℚ
  | none => 100
  | some loc =>
    amplifyConfidence loc.location_weight_multiplier
      (match_location dist candidate_location
        (loc.cities ++ loc.states ++ loc.countries) loc.remote loc.hybrid
        loc.max_distance_miles).confidence

/-- The location component's raw score. -/
def locationRawScore (dist : Coordinates → Coordinates → ℚ) (job : ParsedJobDescription)
    (candidate : CandidateProfile) : ℚ :=
  locationRawFrom dist candidate.location job.location

/-- The location component's effective weight given the (optional)
location requirement: scaled (capped at 0.5) when the multiplier
exceeds 1. -/
def effectiveWeightFrom (base_weight : ℚ) : Option LocationRequirement → ℚ
  | none => base_weight
  | some loc =>
    if 1 < loc.location_weight_multiplier then
      min 0.5 (base_weight * loc.location_weight_multiplier)
    else base_weight

/-- The location component's effective weight. -/
def effectiveLocationWeight (w : Weights) (job : ParsedJobDescription) : ℚ :=
  effectiveWeightFrom w.location_match job.location

/-- `_score_location` (`details` dict elided). -/
def _score_location (w : Weights) (dist : Coordinates → Coordinates → ℚ)
    (job : ParsedJobDescription) (candidate : CandidateProfile) : ScoreComponent :=
  { name := "location_match", weight := effectiveLocationWeight w job,
    raw_score := locationRawScore dist job candidate,
    weighted_score := locationRawScore dist job candidate * effectiveLocationWeight w job }

/-- `trajectory_points` of `_score_career_trajectory`: one 20/10 entry
per adjacent experience pair, then the employment-gap tier bonus, then
the average-tenure tier bonus — the latter two unconditionally, so the
list is never empty and the `else 50` default is unreachable. -/
def trajectoryPoints (o : Oracle) (candidate : CandidateProfile) : List ℚ :=
  ((candidate.experiences.zip candidate.experiences.tail).map fun p =>
    if _is_advancement p.2 p.1 then (20 : ℚ) else 10) ++
  [if _calculate_employment_gaps candidate < 6 then (30 : ℚ)
    else if _calculate_employment_gaps candidate < 12 then 20 else 10] ++
  [if 2 ≤ _calculate_average_tenure o candidate then (30 : ℚ)
    else if 1 ≤ _calculate_average_tenure o candidate then 20 else 10]

/-- The career-trajectory component's raw score: the points summed (50
for an empty list, which cannot occur) and capped at 100. -/
def trajectoryRawScore (o : Oracle) (candidate : CandidateProfile) : ℚ :=
  min (if (trajectoryPoints o candidate).isEmpty then 50
    else (trajectoryPoints o candidate).sum) 100

/-- `_score_career_trajectory` (`details` dict elided). -/
def _score_career_trajectory (w : Weights) (o : Oracle)
    (candidate : CandidateProfile) : ScoreComponent :=
  { name := "career_trajectory", weight := w.career_trajectory,
    raw_score := trajectoryRawScore o candidate,
    weighted_score := trajectoryRawScore o candidate * w.career_trajectory }

/-- The keyword-density component's raw score (50 when no keywords are
extracted). -/
def keywordRawScore (o : Oracle) (job : ParsedJobDescription)
    (candidate : CandidateProfile) : ℚ :=
  if (o.extractKeywords job.job_description_text).isEmpty then 50
  else
    ((((o.extractKeywords job.job_description_text).filter fun kw =>
        strContains (lowerStr (_get_candidate_text candidate)) (lowerStr kw)).length : ℚ) /
      ((o.extractKeywords job.job_description_text).length : ℚ)) * 100

/-- `_score_keyword_density` (`details` dict elided; `_extract_keywords`
is `Oracle.extractKeywords`). -/
def _score_keyword_density (w : Weights) (o : Oracle) (job : ParsedJobDescription)
    (candidate : CandidateProfile) : ScoreComponent :=
  { name := "keyword_density", weight := w.keyword_density,
    raw_score := keywordRawScore o job candidate,
    weighted_score := keywordRawScore o job candidate * w.keyword_density }

/-! ### `scoring_engine.py`: scoring, filtering and ranking -/

/-- The seven components of `score_candidate`, in source order. -/
def componentsOf (w : Weights) (o : Oracle) (dist : Coordinates → Coordinates → ℚ)
    (job : ParsedJobDescription) (candidate : CandidateProfile) : List ScoreComponent :=
  [_score_skills w job candidate,
   _score_experience w o job candidate,
   _score_education w job candidate,
   _score_industry w job candidate,
   _score_location w dist job candidate,
   _score_career_trajectory w o candidate,
   _score_keyword_density w o job candidate]

/-- `ScoringEngine.score_candidate` (explanation/missing/strengths/
recommendation strings elided; they are derived outputs nothing reads). -/
def score_candidate (w : Weights) (o : Oracle) (dist : Coordinates → Coordinates → ℚ)
    (job : ParsedJobDescription) (candidate : CandidateProfile)
    (job_id : Option String) : CandidateScore :=
  { candidate_id := candidate.linkedin_id,
    job_description_id := job_id.getD "unknown",
    overall_score :=
      min (((componentsOf w o dist job candidate).map fun comp => comp.weighted_score).sum) 100,
    components := componentsOf w o dist job candidate,
    confidence_level := _calculate_confidence candidate }

/-- The `acceptable_types` set of `should_filter_candidate`. -/
def acceptableType : LocationMatchType → Bool
  | .EXACT_CITY => true
  | .METRO_AREA => true
  | .WITHIN_RADIUS => true
  | .REMOTE => true
  | _ => false

/-- The decision `should_filter_candidate` takes on the location match
under strict filtering: reject unacceptable match types, then reject
confidence below 60 (reason strings elide the f-string interpolations). -/
def filterDecision (m : LocationMatch) : Bool × String :=
  if !acceptableType m.match_type then (true, "Location mismatch")
  else if m.confidence < 60 then (true, "Location confidence too low")
  else (false, "")

/-- `ScoringEngine.should_filter_candidate`. -/
def should_filter_candidate (dist : Coordinates → Coordinates → ℚ)
    (job : ParsedJobDescription) (candidate : CandidateProfile) : Bool × String :=
  match job.location with
  | none => (false, "")
  | some loc =>
    if loc.strict_location_filter then
      filterDecision (match_location dist candidate.location
        (loc.cities ++ loc.states ++ loc.countries) loc.remote loc.hybrid
        loc.max_distance_miles)
    else (false, "")

/-- One step of Python's stable descending sort by `overall_score`
(`list.sort(key=..., reverse=True)`): insert `x` before the first element
whose score does not exceed it; `x` comes earlier in the input than
everything already inserted, so ties keep input order. -/
def insertScored (x : CandidateProfile × CandidateScore) :
    List (CandidateProfile × CandidateScore) → List (CandidateProfile × CandidateScore)
  | [] => [x]
  | y :: l =>
    if y.2.overall_score ≤ x.2.overall_score then x :: y :: l else y :: insertScored x l

/-- Stable descending sort by `overall_score` (a faithful model of
Python's stable `sort(..., reverse=True)`). -/
def sortScoredDesc (l : List (CandidateProfile × CandidateScore)) :
    List (CandidateProfile × CandidateScore) :=
  l.foldr insertScored []

/-- The `RankedCandidate` built for sorted position `p.1` out of `total`
survivors: 1-based rank and percentile `(total − i − 1) / total × 100`
(100 when `total` is not `> 1`). -/
def rankedOf (total : ℕ) (p : ℕ × (CandidateProfile × CandidateScore)) : RankedCandidate :=
  { profile := p.2.1, score := p.2.2, rank := p.1 + 1,
    percentile := (if 1 < total then (((total : ℚ) - (p.1 : ℚ) - 1) / (total : ℚ)) * 100
      else 100) }

/-- `rank_candidates`' pre-filter pass: the candidates surviving
`should_filter_candidate`, in input order. -/
def survivors (dist : Coordinates → Coordinates → ℚ) (job : ParsedJobDescription)
    (candidates : List CandidateProfile) : List CandidateProfile :=
  candidates.filter fun c => !(should_filter_candidate dist job c).1

/-- `rank_candidates`' scoring pass over the survivors (`job_id` is left
at its `None` default, so scores carry `"unknown"`). -/
def scoredSurvivors (w : Weights) (o : Oracle) (dist : Coordinates → Coordinates → ℚ)
    (job : ParsedJobDescription) (candidates : List CandidateProfile) :
    List (CandidateProfile × CandidateScore) :=
  (survivors dist job candidates).map fun c => (c, score_candidate w o dist job c none)

/-- `ScoringEngine.rank_candidates`: pre-filter, score, stable-sort
descending, then decorate with rank and percentile. -/
def rank_candidates (w : Weights) (o : Oracle) (dist : Coordinates → Coordinates → ℚ)
    (job : ParsedJobDescription) (candidates : List CandidateProfile) :
    List RankedCandidate :=
  let sorted := sortScoredDesc (scoredSurvivors w o dist job candidates)
  sorted.enum.map (rankedOf sorted.length)

/-! ### Predicates used to state the claims -/

/-- A required-location entry resolving to the same city and state as the
candidate's resolved location (the condition of `match_location`'s
exact-city branch). -/
def exactMatchesCandidate (cand : LocationData) (req : String) : Bool :=
  match parse_location req with
  | some rd => lowerStr cand.city == lowerStr rd.city && lowerStr cand.state == lowerStr rd.state
  | none => false

/-- Raw scores are claimed to lie in [0, 100]. -/
def rawInRange (comp : ScoreComponent) : Bool :=
  decide (0 ≤ comp.raw_score) && decide (comp.raw_score ≤ 100)

/-! ### Concrete instances used by counterexamples and witnesses -/

/-- A concrete oracle (any fixed clock, the neutral 50 similarity, no
extracted keywords). -/
def oracle0 : Oracle :=
  { now := { year := 2025, month := 6, days := 20000 },
    relevance := fun _ _ => 50, extractKeywords := fun _ => [] }

def dist0 : Coordinates → Coordinates → ℚ := fun _ _ => 0

def dist10 : Coordinates → Coordinates → ℚ := fun _ _ => 10

/-- A weight map summing to 7 (outside the 1.0±0.01 band). -/
def wBad : Weights :=
  { skill_match := 1, experience_match := 1, education_match := 1, industry_match := 1,
    location_match := 1, career_trajectory := 1, keyword_density := 1 }

/-- Job with a location-critical multiplier below 1 (the data model does
not constrain `location_weight_multiplier`). -/
def jobC1 : ParsedJobDescription :=
  { location := some { cities := ["Vancouver"], location_weight_multiplier := 1/10 } }

def candC1 : CandidateProfile := { linkedin_id := "c1", location := "Toronto" }

def locReqC3 : LocationRequirement :=
  { cities := ["San Francisco"], strict_location_filter := true }

def jobC3 : ParsedJobDescription := { location := some locReqC3 }

def candC3 : CandidateProfile := { linkedin_id := "c3", location := "Tokyo" }

/-- Minimal job/candidates for the ranking witnesses (no location
requirement, so no filtering applies). -/
def jobPlain : ParsedJobDescription := {}

def candA : CandidateProfile := { linkedin_id := "a" }

def candB : CandidateProfile := { linkedin_id := "b" }

def candC7 : CandidateProfile := { linkedin_id := "c7", location := "xyzzy" }

def candC8 : CandidateProfile := { linkedin_id := "c8" }

def jobC9 : ParsedJobDescription := { required_skills := ["python", "react"] }

def candC9 : CandidateProfile := { linkedin_id := "c9", skills := ["python"] }

def locReqC10 : LocationRequirement :=
  { cities := ["San Francisco"], strict_location_filter := true,
    max_distance_miles := some 100 }

def jobC10 : ParsedJobDescription := { location := some locReqC10 }

def candC10 : CandidateProfile := { linkedin_id := "c10", location := "Los Angeles" }

/-! ## Theorems -/

attribute [local semireducible] Rat.add Rat.mul Rat.inv Rat.sub Rat.ofScientific

set_option maxRecDepth 1000000

/-- **C2** — `ScoringEngine` construction succeeds iff the supplied weight
map's values sum to 1.0 within ±0.01; outside that band construction
errors, and on success the weights are returned exactly as supplied
(never renormalized). -/
theorem claim_C2 (w : Weights) :
    (mkScoringEngine (some w) = Except.ok w ↔ |sumWeights w - 1| ≤ 1/100) ∧
    (1/100 < |sumWeights w - 1| → mkScoringEngine (some w) = Except.error ()) := by
  have hband : (0.99 ≤ sumWeights w ∧ sumWeights w ≤ 1.01) ↔ |sumWeights w - 1| ≤ 1/100 := by
    rw [abs_sub_le_iff]
    constructor
    · rintro ⟨h1, h2⟩
      constructor <;> linarith
    · rintro ⟨h1, h2⟩
      constructor <;> linarith
  unfold mkScoringEngine
  simp only [Option.getD]
  constructor
  · split_ifs with h
    · simp only [true_iff]
      exact hband.mp h
    · simp only [reduceCtorEq, false_iff]
      intro habs
      exact h (hband.mpr habs)
  · intro habs
    split_ifs with h
    · exact absurd (hband.mp h) (by linarith)
    · rfl

/-- Witness for C2: a weight map summing to 7 is rejected; the default
weights (summing to 1.0) are accepted unchanged. -/
theorem claim_C2_witness :
    mkScoringEngine (some wBad) = Except.error () ∧
    mkScoringEngine (some DEFAULT_WEIGHTS) = Except.ok DEFAULT_WEIGHTS :=
  ⟨(claim_C2 wBad).2 (by norm_num [sumWeights, wBad]),
   (claim_C2 DEFAULT_WEIGHTS).1.mpr (by norm_num [sumWeights, DEFAULT_WEIGHTS])⟩

/-- **C8, counterexample** — a candidate with no experience entries (hence
no adjacent experience pairs) gets a career-trajectory raw score of 40,
not the claimed default 50: the gap bonus (30, gaps = 0) and the tenure
bonus (10, average tenure 0) are appended unconditionally, so the
`else 50` default is unreachable. -/
theorem claim_C8_counterexample :
    candC8.experiences.length < 2 ∧
    (_score_career_trajectory DEFAULT_WEIGHTS oracle0 candC8).raw_score = 40 ∧
    ¬(_score_career_trajectory DEFAULT_WEIGHTS oracle0 candC8).raw_score = 50 := by
  refine ⟨by decide, by decide, by decide⟩

/-- **C8, amended** — for every candidate with fewer than two experience
entries the career-trajectory raw score is 30 (employment-gap bonus for
gaps = 0) plus the average-tenure tier bonus (30 if ≥ 2 years, 20 if
≥ 1 year, else 10) — in particular 40 when there are no experience
entries — never the unreachable 50 default. -/
theorem claim_C8_amended (w : Weights) (o : Oracle) (c : CandidateProfile)
    (h : c.experiences.length < 2) :
    (_score_career_trajectory w o c).raw_score =
      30 + (if 2 ≤ _calculate_average_tenure o c then (30 : ℚ)
        else if 1 ≤ _calculate_average_tenure o c then 20 else 10) := by
  have hzip : c.experiences.zip c.experiences.tail = [] := by
    match c.experiences, h with
    | [], _ => rfl
    | [a], _ => rfl
  have hgaps : _calculate_employment_gaps c = 0 := by
    unfold _calculate_employment_gaps
    rw [if_pos h]
  show trajectoryRawScore o c = _
  unfold trajectoryRawScore trajectoryPoints
  rw [hzip, hgaps]
  simp only [List.map_nil, List.nil_append, List.singleton_append, List.isEmpty_cons,
    Bool.false_eq_true, if_false, List.sum_cons, List.sum_nil]
  split_ifs <;> first
    | omega
    | norm_num [min_def]

/-- Witness for C8 (amended): the concrete no-experience candidate scores
30 + 10 = 40. -/
theorem claim_C8_amended_witness :
    candC8.experiences.length < 2 ∧
    (_score_career_trajectory DEFAULT_WEIGHTS oracle0 candC8).raw_score =
      30 + (if 2 ≤ _calculate_average_tenure oracle0 candC8 then (30 : ℚ)
        else if 1 ≤ _calculate_average_tenure oracle0 candC8 then 20 else 10) :=
  ⟨by decide, claim_C8_amended DEFAULT_WEIGHTS oracle0 candC8 (by decide)⟩

/-- **C9** — for a job requiring exactly {"python", "react"} with no
preferred skills, and a candidate whose skills are exactly {"python"}
(and with no experience entries contributing extracted skills), the
skill component's raw score is (1/2) × 80 = 40, for any weight map. -/
theorem claim_C9 (w : Weights) : (_score_skills w jobC9 candC9).raw_score = 40 := by
  rfl

/-! ### Lemmas about the stable descending sort -/

theorem insertScored_eq_of_le {x y : CandidateProfile × CandidateScore}
    {t : List (CandidateProfile × CandidateScore)}
    (hle : y.2.overall_score ≤ x.2.overall_score) :
    insertScored x (y :: t) = x :: y :: t := by
  conv_lhs => unfold insertScored
  rw [if_pos hle]

theorem insertScored_eq_of_not_le {x y : CandidateProfile × CandidateScore}
    {t : List (CandidateProfile × CandidateScore)}
    (hle : ¬y.2.overall_score ≤ x.2.overall_score) :
    insertScored x (y :: t) = y :: insertScored x t := by
  conv_lhs => unfold insertScored
  rw [if_neg hle]

theorem insertScored_perm (x : CandidateProfile × CandidateScore)
    (l : List (CandidateProfile × CandidateScore)) :
    List.Perm (insertScored x l) (x :: l) := by
  induction l with
  | nil => simp [insertScored]
  | cons y t ih =>
    by_cases hle : y.2.overall_score ≤ x.2.overall_score
    · rw [insertScored_eq_of_le hle]
    · rw [insertScored_eq_of_not_le hle]
      exact (ih.cons y).trans (List.Perm.swap x y t)

theorem sortScoredDesc_perm (l : List (CandidateProfile × CandidateScore)) :
    List.Perm (sortScoredDesc l) l := by
  induction l with
  | nil => exact List.Perm.refl _
  | cons x t ih =>
    have hstep : sortScoredDesc (x :: t) = insertScored x (sortScoredDesc t) := rfl
    rw [hstep]
    exact (insertScored_perm x (sortScoredDesc t)).trans (ih.cons x)

theorem pairwise_insertScored (x : CandidateProfile × CandidateScore)
    (l : List (CandidateProfile × CandidateScore))
    (h : l.Pairwise fun a b => b.2.overall_score ≤ a.2.overall_score) :
    (insertScored x l).Pairwise fun a b => b.2.overall_score ≤ a.2.overall_score := by
  induction l with
  | nil => simp [insertScored]
  | cons y t ih =>
    rw [List.pairwise_cons] at h
    by_cases hle : y.2.overall_score ≤ x.2.overall_score
    · rw [insertScored_eq_of_le hle]
      refine List.Pairwise.cons ?_ (List.Pairwise.cons h.1 h.2)
      intro z hz
      rcases List.mem_cons.mp hz with hz | hz
      · exact hz ▸ hle
      · exact le_trans (h.1 z hz) hle
    · rw [insertScored_eq_of_not_le hle]
      refine List.Pairwise.cons ?_ (ih h.2)
      intro z hz
      rcases List.mem_cons.mp ((insertScored_perm x t).mem_iff.mp hz) with hz | hz
      · exact hz ▸ le_of_not_le hle
      · exact h.1 z hz

theorem sorted_sortScoredDesc (l : List (CandidateProfile × CandidateScore)) :
    (sortScoredDesc l).Pairwise fun a b => b.2.overall_score ≤ a.2.overall_score := by
  induction l with
  | nil => simp [sortScoredDesc]
  | cons x t ih => exact pairwise_insertScored x (sortScoredDesc t) ih

theorem filter_insertScored (s : ℚ) (x : CandidateProfile × CandidateScore)
    (l : List (CandidateProfile × CandidateScore)) :
    (insertScored x l).filter (fun z => decide (z.2.overall_score = s)) =
      if x.2.overall_score = s then
        x :: l.filter (fun z => decide (z.2.overall_score = s))
      else l.filter (fun z => decide (z.2.overall_score = s)) := by
  induction l with
  | nil =>
    by_cases hx : x.2.overall_score = s
    · simp [insertScored, List.filter, hx]
    · simp [insertScored, List.filter, hx]
  | cons y t ih =>
    by_cases hle : y.2.overall_score ≤ x.2.overall_score
    · rw [insertScored_eq_of_le hle]
      by_cases hx : x.2.overall_score = s
      · rw [if_pos hx, List.filter_cons, if_pos (by simp [hx])]
      · rw [if_neg hx, List.filter_cons, if_neg (by simp [hx])]
    · rw [insertScored_eq_of_not_le hle]
      by_cases hx : x.2.overall_score = s
      · have hy : ¬(y.2.overall_score = s) := by
          intro he
          exact hle (le_of_eq (he.trans hx.symm))
        rw [if_pos hx, List.filter_cons, if_neg (by simp [hy]), ih, if_pos hx,
          List.filter_cons, if_neg (by simp [hy])]
      · rw [if_neg hx, List.filter_cons, List.filter_cons, ih, if_neg hx]

theorem filter_sortScoredDesc (s : ℚ) (l : List (CandidateProfile × CandidateScore)) :
    (sortScoredDesc l).filter (fun z => decide (z.2.overall_score = s)) =
      l.filter (fun z => decide (z.2.overall_score = s)) := by
  induction l with
  | nil => rfl
  | cons x t ih =>
    have hstep : sortScoredDesc (x :: t) = insertScored x (sortScoredDesc t) := rfl
    rw [hstep, filter_insertScored]
    by_cases hx : x.2.overall_score = s
    · rw [if_pos hx, ih, List.filter_cons, if_pos (by simp [hx])]
    · rw [if_neg hx, ih, List.filter_cons, if_neg (by simp [hx])]

/-! ### Lemmas about the rank/percentile decoration -/

theorem mem_enumFrom_snd {p : ℕ × (CandidateProfile × CandidateScore)} :
    ∀ {n : ℕ} {l : List (CandidateProfile × CandidateScore)},
      p ∈ List.enumFrom n l → p.2 ∈ l := by
  intro n l
  induction l generalizing n with
  | nil => intro h; simp [List.enumFrom] at h
  | cons x t ih =>
    intro h
    rcases List.mem_cons.mp h with h | h
    · rw [h]; exact List.mem_cons_self _ _
    · exact List.mem_cons_of_mem _ (ih h)

theorem pairwise_enumFrom {R : CandidateProfile × CandidateScore →
      CandidateProfile × CandidateScore → Prop} :
    ∀ (n : ℕ) (l : List (CandidateProfile × CandidateScore)), l.Pairwise R →
      (List.enumFrom n l).Pairwise fun a b => R a.2 b.2 := by
  intro n l
  induction l generalizing n with
  | nil => intro _; simp [List.enumFrom]
  | cons x t ih =>
    intro h
    rw [List.pairwise_cons] at h
    exact List.Pairwise.cons (fun b hb => h.1 b.2 (mem_enumFrom_snd hb)) (ih (n + 1) h.2)

theorem filter_map_profile_rankedOf (total : ℕ) (q : CandidateScore → Bool) :
    ∀ (n : ℕ) (l : List (CandidateProfile × CandidateScore)),
      ((((List.enumFrom n l).map (rankedOf total)).filter fun r => q r.score).map
          RankedCandidate.profile) =
        ((l.filter fun z => q z.2).map Prod.fst) := by
  intro n l
  induction l generalizing n with
  | nil => rfl
  | cons x t ih =>
    simp only [List.enumFrom, List.map_cons, List.filter_cons]
    by_cases hq : q x.2
    · have hq' : q (rankedOf total (n, x)).score = true := hq
      simp [rankedOf, hq', hq, ih (n + 1)]
    · have hq' : q (rankedOf total (n, x)).score = false := Bool.of_not_eq_true hq
      simp [hq', Bool.of_not_eq_true hq, ih (n + 1)]

theorem length_rank_candidates (w : Weights) (o : Oracle)
    (dist : Coordinates → Coordinates → ℚ) (job : ParsedJobDescription)
    (candidates : List CandidateProfile) :
    (rank_candidates w o dist job candidates).length =
      (sortScoredDesc (scoredSurvivors w o dist job candidates)).length := by
  unfold rank_candidates
  simp [List.enum]

/-- **C5** — `rank_candidates` output is non-increasing in overall score
(every adjacent pair satisfies `R[i].overall_score ≥ R[i+1].overall_score`),
and the sort is stable: for every score value `s`, the output entries
scoring `s` list exactly the surviving input candidates scoring `s`, in
input-batch order. -/
theorem claim_C5 (w : Weights) (o : Oracle) (dist : Coordinates → Coordinates → ℚ)
    (job : ParsedJobDescription) (candidates : List CandidateProfile) :
    (rank_candidates w o dist job candidates).Chain'
        (fun a b => b.score.overall_score ≤ a.score.overall_score) ∧
      ∀ s : ℚ,
        (((rank_candidates w o dist job candidates).filter
            fun r => decide (r.score.overall_score = s)).map RankedCandidate.profile) =
          ((candidates.filter fun c => !(should_filter_candidate dist job c).1).filter
            fun c => decide ((score_candidate w o dist job c none).overall_score = s)) := by
  constructor
  · apply List.Pairwise.chain'
    have h1 := sorted_sortScoredDesc (scoredSurvivors w o dist job candidates)
    have h2 := pairwise_enumFrom (R := fun a b => b.2.overall_score ≤ a.2.overall_score) 0 _ h1
    exact List.pairwise_map.mpr h2
  · intro s
    have hmain := filter_map_profile_rankedOf
      (sortScoredDesc (scoredSurvivors w o dist job candidates)).length
      (fun sc => decide (sc.overall_score = s)) 0
      (sortScoredDesc (scoredSurvivors w o dist job candidates))
    have h2 : ((((List.enumFrom 0 (sortScoredDesc (scoredSurvivors w o dist job
          candidates))).map (rankedOf (sortScoredDesc (scoredSurvivors w o dist job
          candidates)).length)).filter fun r => decide (r.score.overall_score = s)).map
            RankedCandidate.profile) =
        ((candidates.filter fun c => !(should_filter_candidate dist job c).1).filter
          fun c => decide ((score_candidate w o dist job c none).overall_score = s)) := by
      rw [hmain, filter_sortScoredDesc]
      unfold scoredSurvivors survivors
      rw [List.filter_map, List.map_map]
      rw [show (Prod.fst ∘ fun c : CandidateProfile =>
          (c, score_candidate w o dist job c none)) = id from rfl, List.map_id]
      rfl
    exact h2

/-- **C6** — in the ranked output of `N` survivors, the entry at 0-based
sorted position `i` carries 1-based rank `i + 1` and percentile
`(N − i − 1) / N × 100` when `N > 1`, and percentile 100 for a lone
candidate (`N = 1`). -/
theorem claim_C6 (w : Weights) (o : Oracle) (dist : Coordinates → Coordinates → ℚ)
    (job : ParsedJobDescription) (candidates : List CandidateProfile) (i : ℕ)
    (r : RankedCandidate) (h : (rank_candidates w o dist job candidates)[i]? = some r) :
    r.rank = i + 1 ∧
      r.percentile =
        (if 1 < (rank_candidates w o dist job candidates).length then
          ((((rank_candidates w o dist job candidates).length : ℚ) - (i : ℚ) - 1) /
              ((rank_candidates w o dist job candidates).length : ℚ)) * 100
        else 100) := by
  rw [length_rank_candidates]
  have h' : (((List.enumFrom 0 (sortScoredDesc (scoredSurvivors w o dist job
      candidates))).map (rankedOf (sortScoredDesc (scoredSurvivors w o dist job
      candidates)).length)))[i]? = some r := h
  rw [List.getElem?_map, List.getElem?_enumFrom] at h'
  cases hs : (sortScoredDesc (scoredSurvivors w o dist job candidates))[i]? with
  | none => rw [hs] at h'; simp at h'
  | some a =>
    rw [hs] at h'
    rename' h' => h
    simp only [Option.map_map, Option.map_some', Function.comp] at h
    have hr : r = rankedOf (sortScoredDesc (scoredSurvivors w o dist job candidates)).length
        (0 + i, a) := (Option.some.injEq _ _).mp h.symm
    rw [hr]
    unfold rankedOf
    constructor
    · simp
    · simp

/-- Witness for C6: with two surviving candidates the top entry has rank 1
and percentile (2−1)/2 × 100 = 50. -/
theorem claim_C6_witness :
    ((rank_candidates DEFAULT_WEIGHTS oracle0 dist0 jobPlain [candA, candB])[0]?).map
      (fun r => (r.rank, r.percentile)) = some (1, 50) := by
  cases hr : (rank_candidates DEFAULT_WEIGHTS oracle0 dist0 jobPlain [candA, candB])[0]? with
  | none => exact absurd hr (by decide)
  | some r =>
    obtain ⟨h1, h2⟩ := claim_C6 DEFAULT_WEIGHTS oracle0 dist0 jobPlain [candA, candB] 0 r hr
    have hlen :
        (rank_candidates DEFAULT_WEIGHTS oracle0 dist0 jobPlain [candA, candB]).length = 2 := by
      decide
    rw [hlen] at h2
    simp only [Option.map_some', h1, h2]
    norm_num

/-! ### Lemmas relating ranked output to the surviving candidates -/

theorem map_profile_rankedOf (total : ℕ) :
    ∀ (n : ℕ) (l : List (CandidateProfile × CandidateScore)),
      ((List.enumFrom n l).map (rankedOf total)).map RankedCandidate.profile =
        l.map Prod.fst := by
  intro n l
  induction l generalizing n with
  | nil => rfl
  | cons x t ih => simp [List.enumFrom, rankedOf, ih (n + 1)]

/-- The profiles in the ranked output are a permutation of the surviving
candidates. -/
theorem profile_rank_perm (w : Weights) (o : Oracle) (dist : Coordinates → Coordinates → ℚ)
    (job : ParsedJobDescription) (candidates : List CandidateProfile) :
    List.Perm ((rank_candidates w o dist job candidates).map RankedCandidate.profile)
      (survivors dist job candidates) := by
  have h1 : (rank_candidates w o dist job candidates).map RankedCandidate.profile =
      (sortScoredDesc (scoredSurvivors w o dist job candidates)).map Prod.fst :=
    map_profile_rankedOf _ 0 _
  rw [h1]
  have h2 := (sortScoredDesc_perm (scoredSurvivors w o dist job candidates)).map Prod.fst
  have h3 : (scoredSurvivors w o dist job candidates).map Prod.fst =
      survivors dist job candidates := by
    unfold scoredSurvivors
    rw [List.map_map]
    rw [show (Prod.fst ∘ fun c : CandidateProfile =>
        (c, score_candidate w o dist job c none)) = id from rfl, List.map_id]
  rw [h3] at h2
  exact h2

/-- **C3** — under a strict location filter, a candidate whose location
match has a type outside {exact-city, metro-area, within-radius, remote}
(in particular NO_MATCH) or confidence below 60 never appears in the
ranked output. -/
theorem claim_C3 (w : Weights) (o : Oracle) (dist : Coordinates → Coordinates → ℚ)
    (job : ParsedJobDescription) (loc : LocationRequirement) (cand : CandidateProfile)
    (candidates : List CandidateProfile) (h1 : job.location = some loc)
    (h2 : loc.strict_location_filter = true)
    (h3 : acceptableType (match_location dist cand.location
        (loc.cities ++ loc.states ++ loc.countries) loc.remote loc.hybrid
        loc.max_distance_miles).match_type = false ∨
      (match_location dist cand.location (loc.cities ++ loc.states ++ loc.countries)
        loc.remote loc.hybrid loc.max_distance_miles).confidence < 60) :
    cand ∉ (rank_candidates w o dist job candidates).map RankedCandidate.profile := by
  have hsf : (should_filter_candidate dist job cand).1 = true := by
    unfold should_filter_candidate
    rw [h1]
    simp only [h2, if_true]
    unfold filterDecision
    rcases h3 with h3 | h3
    · rw [h3]
      rfl
    · by_cases hacc : acceptableType (match_location dist cand.location
          (loc.cities ++ loc.states ++ loc.countries) loc.remote loc.hybrid
          loc.max_distance_miles).match_type
      · rw [hacc]
        simp only [Bool.not_true, Bool.false_eq_true, if_false]
        rw [if_pos h3]
      · rw [Bool.of_not_eq_true hacc]
        rfl
  intro hmem
  have hmem' := (profile_rank_perm w o dist job candidates).mem_iff.mp hmem
  unfold survivors at hmem'
  have hpred := (List.mem_filter.mp hmem').2
  rw [hsf] at hpred
  exact absurd hpred (by decide)

/-- Witness for C3: a Tokyo candidate against a strict San-Francisco job
resolves to NO_MATCH (unacceptable type) and is absent from the ranked
output. -/
theorem claim_C3_witness :
    acceptableType (match_location dist0 candC3.location
        (locReqC3.cities ++ locReqC3.states ++ locReqC3.countries) locReqC3.remote
        locReqC3.hybrid locReqC3.max_distance_miles).match_type = false ∧
      candC3 ∉ (rank_candidates DEFAULT_WEIGHTS oracle0 dist0 jobC3 [candC3]).map
        RankedCandidate.profile :=
  ⟨by decide,
   claim_C3 DEFAULT_WEIGHTS oracle0 dist0 jobC3 locReqC3 candC3 [candC3] rfl rfl
     (Or.inl (by decide))⟩

/-! ### Lemmas about `match_location`'s required-locations loop -/

/-- If some entry of the required list resolves to the candidate's city
and state, the loop ends with confidence 100 (either through that entry's
exact-city return, or through an earlier `"remote"` early return, which
also carries confidence 100). -/
theorem match_location_loop_exact (dist : Coordinates → Coordinates → ℚ)
    (cand : LocationData) (ra ha : Bool) (md : Option ℤ) :
    ∀ reqs : List String, reqs.any (exactMatchesCandidate cand) = true →
      ∀ best : LocationMatch,
        (match_location_loop dist cand ra ha md reqs best).confidence = 100 := by
  intro reqs
  induction reqs with
  | nil => intro h; simp at h
  | cons req rest ih =>
    intro h best
    rw [List.any_cons] at h
    simp only [match_location_loop]
    split_ifs with hrem
    · rfl
    · split
      next hp =>
        have hhead : exactMatchesCandidate cand req = false := by
          unfold exactMatchesCandidate
          rw [hp]
        rw [hhead] at h
        simp only [Bool.false_or] at h
        exact ih h best
      next rd hp =>
        split_ifs with hexact
        · rfl
        · have hhead : exactMatchesCandidate cand req = false := by
            unfold exactMatchesCandidate
            rw [hp]
            exact Bool.of_not_eq_true hexact
          rw [hhead] at h
          simp only [Bool.false_or] at h
          exact ih h _

/-- **C4, counterexample** — the candidate location "Remote San Francisco"
resolves (via substring lookup) to San Francisco, CA, and the required
entry "San Francisco" resolves to the same city and state; yet
`match_location` (remote not allowed) returns confidence 20, not 100,
because the remote-keyword check short-circuits before the
required-locations loop. -/
theorem claim_C4_counterexample :
    ((parse_location (stripStr "Remote San Francisco")).map fun l =>
        (lowerStr l.city, lowerStr l.state)) = some ("san francisco", "ca") ∧
      (match parse_location (stripStr "Remote San Francisco") with
        | some cand => List.any ["San Francisco"] (exactMatchesCandidate cand)
        | none => false) = true ∧
      (match_location dist0 "Remote San Francisco" ["San Francisco"] false false
          none).confidence = 20 ∧
      ¬(match_location dist0 "Remote San Francisco" ["San Francisco"] false false
          none).confidence = 100 := by
  refine ⟨by decide, by decide, by decide, by decide⟩

/-- **C4, amended** — provided the candidate location contains no
remote-work indicator keyword, if it resolves and some required entry
resolves to the same city and state, then `match_location` returns
confidence 100, for every ordering of the required list (the conclusion
holds for every permutation of it).  Without that proviso a
remote-keyword candidate short-circuits to REMOTE/100 or NO_MATCH/20
before the loop. -/
theorem claim_C4_amended (dist : Coordinates → Coordinates → ℚ) (cl : String)
    (cand : LocationData) (reqs reqs' : List String) (ra ha : Bool) (md : Option ℤ)
    (h1 : (remote_keywords.any fun k => strContains (lowerStr (stripStr cl)) k) = false)
    (h2 : parse_location (stripStr cl) = some cand)
    (h3 : reqs.any (exactMatchesCandidate cand) = true)
    (hperm : List.Perm reqs reqs') :
    (match_location dist cl reqs' ra ha md).confidence = 100 := by
  have h3' : reqs'.any (exactMatchesCandidate cand) = true := by
    rcases List.any_eq_true.mp h3 with ⟨req, hmem, hex⟩
    exact List.any_eq_true.mpr ⟨req, hperm.mem_iff.mp hmem, hex⟩
  have hcl : ¬(cl == "") = true := by
    intro he
    simp only [beq_iff_eq] at he
    rw [he] at h2
    rw [show parse_location (stripStr "") = none from by decide] at h2
    exact Option.noConfusion h2
  unfold match_location
  rw [if_neg hcl, if_neg (by rw [h1]; exact Bool.false_ne_true), h2]
  exact match_location_loop_exact dist cand ra ha md reqs' h3' _

/-- Witness for C4 (amended): a "San Francisco, CA" candidate with the
exact entry listed second still gets confidence 100 after swapping the
two required entries. -/
theorem claim_C4_amended_witness :
    (remote_keywords.any fun k =>
        strContains (lowerStr (stripStr "San Francisco, CA")) k) = false ∧
      (match_location dist0 "San Francisco, CA" ["San Francisco", "Boston"] false false
        none).confidence = 100 := by
  have h2 : ∀ l, parse_location (stripStr "San Francisco, CA") = some l →
      List.any ["Boston", "San Francisco"] (exactMatchesCandidate l) = true := by
    decide
  cases hp : parse_location (stripStr "San Francisco, CA") with
  | none => exact absurd hp (by decide)
  | some l =>
    exact ⟨by decide,
      claim_C4_amended dist0 "San Francisco, CA" l ["Boston", "San Francisco"]
        ["San Francisco", "Boston"] false false none (by decide) hp (h2 l hp)
        (List.Perm.swap _ _ _)⟩

/-- **C7, counterexample** — the empty candidate-location string contains
no remote keyword and cannot be resolved by `parse_location`, yet
`match_location` returns confidence 0, not 10: the `if not
candidate_location` guard returns NO_MATCH/0 before the parse step. -/
theorem claim_C7_counterexample :
    (remote_keywords.any fun k => strContains (lowerStr (stripStr "")) k) = false ∧
      parse_location "" = none ∧
      (match_location dist0 "" [] false false none).match_type = .NO_MATCH ∧
      (match_location dist0 "" [] false false none).confidence = 0 ∧
      ¬(match_location dist0 "" [] false false none).confidence = 10 := by
  refine ⟨by decide, by decide, by decide, by decide, by decide⟩

/-- **C7, amended** — for every *non-empty* candidate location string with
no remote-work indicator keyword that `parse_location` cannot resolve,
`match_location` returns NO_MATCH with confidence exactly 10, and such a
candidate is still scored (it appears in the ranked output) when the job
does not apply strict location filtering.  The empty string instead hits
the `if not candidate_location` guard and yields confidence 0. -/
theorem claim_C7_amended (w : Weights) (o : Oracle) (dist : Coordinates → Coordinates → ℚ)
    (job : ParsedJobDescription) (candidates : List CandidateProfile)
    (c : CandidateProfile) (reqs : List String) (ra ha : Bool) (md : Option ℤ)
    (hne : ¬c.location = "")
    (h1 : (remote_keywords.any fun k => strContains (lowerStr (stripStr c.location)) k)
      = false)
    (h2 : parse_location (stripStr c.location) = none)
    (hstrict : match job.location with
      | some loc => loc.strict_location_filter = false
      | none => True)
    (hmem : c ∈ candidates) :
    (match_location dist c.location reqs ra ha md).match_type = .NO_MATCH ∧
      (match_location dist c.location reqs ra ha md).confidence = 10 ∧
      c ∈ (rank_candidates w o dist job candidates).map RankedCandidate.profile := by
  have hcl : ¬(c.location == "") = true := by
    intro he
    simp only [beq_iff_eq] at he
    exact hne he
  have hmatch : match_location dist c.location reqs ra ha md =
      { match_type := .NO_MATCH, confidence := 10,
        details := "Could not parse candidate location" } := by
    unfold match_location
    rw [if_neg hcl, if_neg (by rw [h1]; exact Bool.false_ne_true), h2]
  refine ⟨by rw [hmatch], by rw [hmatch], ?_⟩
  have hfilter : ∀ x, (should_filter_candidate dist job x).1 = false := by
    intro x
    unfold should_filter_candidate
    cases hjl : job.location with
    | none => rfl
    | some loc =>
      rw [hjl] at hstrict
      simp only [hstrict, Bool.false_eq_true, if_false]
  have hsurv : survivors dist job candidates = candidates := by
    unfold survivors
    apply List.filter_eq_self.mpr
    intro a _
    rw [hfilter a]
    rfl
  apply (profile_rank_perm w o dist job candidates).mem_iff.mpr
  rw [hsurv]
  exact hmem

/-- Witness for C7 (amended): the unresolvable candidate location "xyzzy"
yields NO_MATCH/10 and the candidate still appears in the ranked output
of a job without location requirement. -/
theorem claim_C7_amended_witness :
    (match_location dist0 candC7.location [] false false none).match_type = .NO_MATCH ∧
      (match_location dist0 candC7.location [] false false none).confidence = 10 ∧
      candC7 ∈ (rank_candidates DEFAULT_WEIGHTS oracle0 dist0 jobPlain [candC7]).map
        RankedCandidate.profile :=
  claim_C7_amended DEFAULT_WEIGHTS oracle0 dist0 jobPlain [candC7] candC7 [] false false
    none (by decide) (by decide) (by decide) (by trivial) (by decide)

/-- `considerMatch` preserves the WITHIN_RADIUS confidence floor. -/
theorem considerMatch_within_radius {best m : LocationMatch}
    (hb : best.match_type = .WITHIN_RADIUS → 60 ≤ best.confidence)
    (hm : m.match_type = .WITHIN_RADIUS → 60 ≤ m.confidence) :
    (considerMatch best m).match_type = .WITHIN_RADIUS →
      60 ≤ (considerMatch best m).confidence := by
  unfold considerMatch
  split_ifs
  · exact hm
  · exact hb

theorem loopStepA_within_radius (cand rd : LocationData) (ha : Bool)
    (best : LocationMatch) (hb : best.match_type = .WITHIN_RADIUS → 60 ≤ best.confidence) :
    (loopStepA cand rd ha best).match_type = .WITHIN_RADIUS →
      60 ≤ (loopStepA cand rd ha best).confidence := by
  unfold loopStepA
  split_ifs <;> first
    | exact hb
    | exact considerMatch_within_radius hb (by intro ht; simp at ht)

theorem loopStepB_within_radius (dist : Coordinates → Coordinates → ℚ)
    (cand rd : LocationData) (md : Option ℤ) (best : LocationMatch)
    (hb : best.match_type = .WITHIN_RADIUS → 60 ≤ best.confidence) :
    (loopStepB dist cand rd md best).match_type = .WITHIN_RADIUS →
      60 ≤ (loopStepB dist cand rd md best).confidence := by
  unfold loopStepB
  split
  · split_ifs
    · exact hb
    · exact considerMatch_within_radius hb (by intro _; exact le_max_left 60 _)
    · exact hb
  · exact hb

/-- Any `LocationMatch` the loop can return whose type is WITHIN_RADIUS
has confidence at least 60, the radius score being floored at 60. -/
theorem match_location_loop_within_radius (dist : Coordinates → Coordinates → ℚ)
    (cand : LocationData) (ra ha : Bool) (md : Option ℤ) :
    ∀ (reqs : List String) (best : LocationMatch),
      (best.match_type = .WITHIN_RADIUS → 60 ≤ best.confidence) →
      (match_location_loop dist cand ra ha md reqs best).match_type = .WITHIN_RADIUS →
        60 ≤ (match_location_loop dist cand ra ha md reqs best).confidence := by
  intro reqs
  induction reqs with
  | nil =>
    intro best hbest
    simpa only [match_location_loop] using hbest
  | cons req rest ih =>
    intro best hbest
    simp only [match_location_loop]
    split_ifs with hrem
    · intro ht
      simp at ht
    · split
      next hp => exact ih best hbest
      next rd hp =>
        split_ifs with hexact
        · intro ht
          simp at ht
        · exact ih _ (loopStepB_within_radius dist cand rd md _
            (loopStepA_within_radius cand rd ha best hbest))

/-- Any `match_location` result of type WITHIN_RADIUS has confidence at
least 60. -/
theorem match_location_within_radius (dist : Coordinates → Coordinates → ℚ)
    (cl : String) (reqs : List String) (ra ha : Bool) (md : Option ℤ)
    (ht : (match_location dist cl reqs ra ha md).match_type = .WITHIN_RADIUS) :
    60 ≤ (match_location dist cl reqs ra ha md).confidence := by
  unfold match_location at ht ⊢
  split_ifs at ht ⊢ with h1 h2 h3
  cases hp : parse_location (stripStr cl) with
  | none =>
    rw [hp] at ht
    simp at ht
  | some cand =>
    rw [hp] at ht
    exact match_location_loop_within_radius dist cand ra ha md reqs _
      (by intro habs; simp at habs) ht

/-- **C10** — every `match_location` result of type WITHIN_RADIUS has
confidence at least 60 (the distance score is floored at 60), so the
strict pre-filter's confidence check never rejects a within-radius
match: `should_filter_candidate` keeps the candidate. -/
theorem claim_C10 (dist : Coordinates → Coordinates → ℚ) (job : ParsedJobDescription)
    (cand : CandidateProfile) (loc : LocationRequirement)
    (h1 : job.location = some loc) (h2 : loc.strict_location_filter = true)
    (h3 : (match_location dist cand.location (loc.cities ++ loc.states ++ loc.countries)
      loc.remote loc.hybrid loc.max_distance_miles).match_type = .WITHIN_RADIUS) :
    60 ≤ (match_location dist cand.location (loc.cities ++ loc.states ++ loc.countries)
        loc.remote loc.hybrid loc.max_distance_miles).confidence ∧
      should_filter_candidate dist job cand = (false, "") := by
  have hconf := match_location_within_radius dist cand.location
    (loc.cities ++ loc.states ++ loc.countries) loc.remote loc.hybrid
    loc.max_distance_miles h3
  refine ⟨hconf, ?_⟩
  unfold should_filter_candidate
  rw [h1]
  simp only [h2, if_true]
  unfold filterDecision
  rw [h3]
  simp only [acceptableType, Bool.not_true, Bool.false_eq_true, if_false]
  rw [if_neg (not_lt.mpr hconf)]

/-- Witness for C10: a Los Angeles candidate against a strict
San-Francisco job with a 100-mile radius (distance oracle returning 10)
matches WITHIN_RADIUS with confidence 96 ≥ 60 and is not filtered. -/
theorem claim_C10_witness :
    (match_location dist10 candC10.location
        (locReqC10.cities ++ locReqC10.states ++ locReqC10.countries) locReqC10.remote
        locReqC10.hybrid locReqC10.max_distance_miles).match_type = .WITHIN_RADIUS ∧
      60 ≤ (match_location dist10 candC10.location
        (locReqC10.cities ++ locReqC10.states ++ locReqC10.countries) locReqC10.remote
        locReqC10.hybrid locReqC10.max_distance_miles).confidence ∧
      should_filter_candidate dist10 jobC10 candC10 = (false, "") := by
  have h3 : (match_location dist10 candC10.location
      (locReqC10.cities ++ locReqC10.states ++ locReqC10.countries) locReqC10.remote
      locReqC10.hybrid locReqC10.max_distance_miles).match_type = .WITHIN_RADIUS := by
    decide
  have h := claim_C10 dist10 jobC10 candC10 locReqC10 rfl rfl h3
  exact ⟨h3, h.1, h.2⟩

/-! ### Confidence bounds for `match_location` (toward C1) -/

theorem considerMatch_bounds {best m : LocationMatch}
    (hb : 0 ≤ best.confidence ∧ best.confidence ≤ 100)
    (hm : 0 ≤ m.confidence ∧ m.confidence ≤ 100) :
    0 ≤ (considerMatch best m).confidence ∧ (considerMatch best m).confidence ≤ 100 := by
  unfold considerMatch
  split_ifs
  · exact hm
  · exact hb

theorem loopStepA_bounds (cand rd : LocationData) (ha : Bool) (best : LocationMatch)
    (hb : 0 ≤ best.confidence ∧ best.confidence ≤ 100) :
    0 ≤ (loopStepA cand rd ha best).confidence ∧
      (loopStepA cand rd ha best).confidence ≤ 100 := by
  unfold loopStepA
  split_ifs <;> first
    | exact hb
    | exact considerMatch_bounds hb (by norm_num)

theorem loopStepB_bounds (dist : Coordinates → Coordinates → ℚ) (cand rd : LocationData)
    (md : Option ℤ) (best : LocationMatch) (hd : ∀ a b, 0 ≤ dist a b)
    (hb : 0 ≤ best.confidence ∧ best.confidence ≤ 100) :
    0 ≤ (loopStepB dist cand rd md best).confidence ∧
      (loopStepB dist cand rd md best).confidence ≤ 100 := by
  unfold loopStepB
  split
  next m =>
    split_ifs with hm0 hdle
    · exact hb
    · refine considerMatch_bounds hb ⟨?_, ?_⟩
      · exact le_trans (by norm_num) (le_max_left 60 _)
      · have hm0' : m ≠ 0 := by
          intro he
          rw [he] at hm0
          exact hm0 rfl
        have hd0 : (0 : ℚ) ≤ dist cand.coordinates rd.coordinates := hd _ _
        have hmpos : (0 : ℚ) < (m : ℚ) := by
          have h0m : (0 : ℚ) ≤ (m : ℚ) := le_trans hd0 hdle
          rcases lt_or_eq_of_le h0m with h | h
          · exact h
          · exact absurd (Int.cast_injective h.symm : m = 0) hm0'
        have hq : (0 : ℚ) ≤ dist cand.coordinates rd.coordinates / (m : ℚ) * 40 := by
          positivity
        refine max_le (by norm_num) (by linarith)
    · exact hb
  next => exact hb

theorem match_location_loop_conf_bounds (dist : Coordinates → Coordinates → ℚ)
    (cand : LocationData) (ra ha : Bool) (md : Option ℤ) (hd : ∀ a b, 0 ≤ dist a b) :
    ∀ (reqs : List String) (best : LocationMatch),
      0 ≤ best.confidence → best.confidence ≤ 100 →
      0 ≤ (match_location_loop dist cand ra ha md reqs best).confidence ∧
        (match_location_loop dist cand ra ha md reqs best).confidence ≤ 100 := by
  intro reqs
  induction reqs with
  | nil =>
    intro best h0 h1
    exact ⟨h0, h1⟩
  | cons req rest ih =>
    intro best h0 h1
    simp only [match_location_loop]
    split_ifs with hrem
    · norm_num
    · split
      next hp => exact ih best h0 h1
      next rd hp =>
        split_ifs with hexact
        · norm_num
        · have hstep := loopStepB_bounds dist cand rd md _ hd
            (loopStepA_bounds cand rd ha best ⟨h0, h1⟩)
          exact ih _ hstep.1 hstep.2

/-- The confidence `match_location` returns always lies in [0, 100]
(given that the distance function is non-negative, as the haversine
distance is). -/
theorem match_location_conf_bounds (dist : Coordinates → Coordinates → ℚ)
    (cl : String) (reqs : List String) (ra ha : Bool) (md : Option ℤ)
    (hd : ∀ a b, 0 ≤ dist a b) :
    0 ≤ (match_location dist cl reqs ra ha md).confidence ∧
      (match_location dist cl reqs ra ha md).confidence ≤ 100 := by
  unfold match_location
  split_ifs
  · norm_num
  · norm_num
  · norm_num
  · cases hp : parse_location (stripStr cl) with
    | none => norm_num
    | some cand =>
      exact match_location_loop_conf_bounds dist cand ra ha md hd reqs _
        (by norm_num) (by norm_num)

/-! ### Raw-score bounds for the seven components (toward C1) -/

theorem foldl_pair_bound (step : ℕ × ℚ → String → ℕ × ℚ)
    (hstep : ∀ acc s, 0 ≤ acc.2 →
      0 ≤ (step acc s).2 ∧
        ((step acc s).1 : ℚ) + (step acc s).2 ≤ (acc.1 : ℚ) + acc.2 + 1) :
    ∀ (l : List String) (acc : ℕ × ℚ), 0 ≤ acc.2 →
      0 ≤ (l.foldl step acc).2 ∧
        ((l.foldl step acc).1 : ℚ) + (l.foldl step acc).2 ≤
          (acc.1 : ℚ) + acc.2 + l.length := by
  intro l
  induction l with
  | nil =>
    intro acc h
    exact ⟨h, by simp⟩
  | cons x t ih =>
    intro acc h
    simp only [List.foldl_cons, List.length_cons]
    obtain ⟨h1, h2⟩ := hstep acc x h
    obtain ⟨h3, h4⟩ := ih (step acc x) h1
    refine ⟨h3, ?_⟩
    push_cast at h4 ⊢
    linarith

theorem foldl_rat_bound (step : ℚ → String → ℚ)
    (hstep : ∀ acc s, 0 ≤ acc → 0 ≤ step acc s ∧ step acc s ≤ acc + 1/2) :
    ∀ (l : List String) (acc : ℚ), 0 ≤ acc →
      0 ≤ l.foldl step acc ∧ l.foldl step acc ≤ acc + (l.length : ℚ) * (1/2) := by
  intro l
  induction l with
  | nil =>
    intro acc h
    exact ⟨h, by simp⟩
  | cons x t ih =>
    intro acc h
    simp only [List.foldl_cons, List.length_cons]
    obtain ⟨h1, h2⟩ := hstep acc x h
    obtain ⟨h3, h4⟩ := ih (step acc x) h1
    refine ⟨h3, ?_⟩
    push_cast at h4 ⊢
    linarith

theorem requiredSkillStep_bound (cs : List String) (acc : ℕ × ℚ) (req : String)
    (h : 0 ≤ acc.2) :
    0 ≤ (requiredSkillStep cs acc req).2 ∧
      ((requiredSkillStep cs acc req).1 : ℚ) + (requiredSkillStep cs acc req).2 ≤
        (acc.1 : ℚ) + acc.2 + 1 := by
  unfold requiredSkillStep
  split_ifs <;> constructor <;> push_cast <;> linarith

theorem preferredSkillStep_bound (cs : List String) (acc : ℚ) (pref : String)
    (h : 0 ≤ acc) :
    0 ≤ preferredSkillStep cs acc pref ∧ preferredSkillStep cs acc pref ≤ acc + 1/2 := by
  unfold preferredSkillStep
  split_ifs <;> constructor <;> linarith

theorem length_pos_of_not_isEmpty {α : Type} {l : List α} (h : ¬l.isEmpty = true) :
    (0 : ℚ) < (l.length : ℚ) := by
  have hne : l ≠ [] := by
    intro he
    rw [he] at h
    exact h rfl
  exact_mod_cast List.length_pos.mpr hne

theorem skillRawScore_bounds (job : ParsedJobDescription) (candidate : CandidateProfile) :
    0 ≤ skillRawScore job candidate ∧ skillRawScore job candidate ≤ 100 := by
  obtain ⟨hp2, hsum⟩ := foldl_pair_bound
    (requiredSkillStep (candidate_skills_of candidate))
    (fun acc s => requiredSkillStep_bound (candidate_skills_of candidate) acc s)
    (required_skills_of job) ((0 : ℕ), (0 : ℚ)) le_rfl
  obtain ⟨hq0, hqle⟩ := foldl_rat_bound
    (preferredSkillStep (candidate_skills_of candidate))
    (fun acc s => preferredSkillStep_bound (candidate_skills_of candidate) acc s)
    (preferred_skills_of job) 0 le_rfl
  simp only [Nat.cast_zero, zero_add] at hsum hqle
  unfold skillRawScore
  have hr1 : (0 : ℚ) ≤ (((required_skills_of job).foldl
      (requiredSkillStep (candidate_skills_of candidate)) ((0 : ℕ), (0 : ℚ))).1 : ℚ) := by
    positivity
  split_ifs with h1 h2 h2
  · constructor <;> norm_num
  · have hlen : (0 : ℚ) < ((preferred_skills_of job).length : ℚ) :=
      length_pos_of_not_isEmpty h2
    have hdiv : ((preferred_skills_of job).foldl
        (preferredSkillStep (candidate_skills_of candidate)) 0) /
          ((preferred_skills_of job).length : ℚ) ≤ 1/2 := by
      rw [div_le_iff₀ hlen]
      linarith
    have hdiv0 : 0 ≤ ((preferred_skills_of job).foldl
        (preferredSkillStep (candidate_skills_of candidate)) 0) /
          ((preferred_skills_of job).length : ℚ) := div_nonneg hq0 (le_of_lt hlen)
    constructor <;> linarith
  · have hlen : (0 : ℚ) < ((required_skills_of job).length : ℚ) :=
      length_pos_of_not_isEmpty h1
    have hdiv : ((((required_skills_of job).foldl
        (requiredSkillStep (candidate_skills_of candidate)) ((0 : ℕ), (0 : ℚ))).1 : ℚ) +
          ((required_skills_of job).foldl
            (requiredSkillStep (candidate_skills_of candidate)) ((0 : ℕ), (0 : ℚ))).2) /
          ((required_skills_of job).length : ℚ) ≤ 1 := by
      rw [div_le_one hlen]
      exact hsum
    have hdiv0 : 0 ≤ ((((required_skills_of job).foldl
        (requiredSkillStep (candidate_skills_of candidate)) ((0 : ℕ), (0 : ℚ))).1 : ℚ) +
          ((required_skills_of job).foldl
            (requiredSkillStep (candidate_skills_of candidate)) ((0 : ℕ), (0 : ℚ))).2) /
          ((required_skills_of job).length : ℚ) :=
      div_nonneg (by linarith) (le_of_lt hlen)
    constructor <;> linarith
  · have hlenr : (0 : ℚ) < ((required_skills_of job).length : ℚ) :=
      length_pos_of_not_isEmpty h1
    have hlenp : (0 : ℚ) < ((preferred_skills_of job).length : ℚ) :=
      length_pos_of_not_isEmpty h2
    have hdivr : ((((required_skills_of job).foldl
        (requiredSkillStep (candidate_skills_of candidate)) ((0 : ℕ), (0 : ℚ))).1 : ℚ) +
          ((required_skills_of job).foldl
            (requiredSkillStep (candidate_skills_of candidate)) ((0 : ℕ), (0 : ℚ))).2) /
          ((required_skills_of job).length : ℚ) ≤ 1 := by
      rw [div_le_one hlenr]
      exact hsum
    have hdivr0 : 0 ≤ ((((required_skills_of job).foldl
        (requiredSkillStep (candidate_skills_of candidate)) ((0 : ℕ), (0 : ℚ))).1 : ℚ) +
          ((required_skills_of job).foldl
            (requiredSkillStep (candidate_skills_of candidate)) ((0 : ℕ), (0 : ℚ))).2) /
          ((required_skills_of job).length : ℚ) :=
      div_nonneg (by linarith) (le_of_lt hlenr)
    have hdivp : ((preferred_skills_of job).foldl
        (preferredSkillStep (candidate_skills_of candidate)) 0) /
          ((preferred_skills_of job).length : ℚ) ≤ 1/2 := by
      rw [div_le_iff₀ hlenp]
      linarith
    have hdivp0 : 0 ≤ ((preferred_skills_of job).foldl
        (preferredSkillStep (candidate_skills_of candidate)) 0) /
          ((preferred_skills_of job).length : ℚ) := div_nonneg hq0 (le_of_lt hlenp)
    constructor <;> linarith

theorem maxYearsScore_bounds (total_years : ℚ) (omx : Option ℤ) :
    0 ≤ maxYearsScore total_years omx ∧ maxYearsScore total_years omx ≤ 100 := by
  cases omx with
  | none => simp only [maxYearsScore]; constructor <;> norm_num
  | some mx =>
    simp only [maxYearsScore]
    split_ifs with hz hle
    · constructor <;> norm_num
    · constructor <;> norm_num
    · have hgt : (mx : ℚ) < total_years := not_le.mp hle
      constructor
      · exact le_trans (by norm_num) (le_max_left 70 _)
      · exact max_le (by norm_num) (by linarith)

theorem yearsScoreFrom_bounds (total_years : ℚ) (oe : Option ExperienceRequirement) :
    0 ≤ yearsScoreFrom total_years oe ∧ yearsScoreFrom total_years oe ≤ 100 := by
  cases oe with
  | none => simp only [yearsScoreFrom]; constructor <;> norm_num
  | some e =>
    simp only [yearsScoreFrom]
    split_ifs with hmin
    · exact maxYearsScore_bounds total_years e.max_years
    · have hgt : total_years < (e.min_years : ℚ) := not_le.mp hmin
      constructor
      · exact le_max_left 0 _
      · exact max_le (by norm_num) (by linarith)

theorem yearsScore_bounds (o : Oracle) (job : ParsedJobDescription)
    (candidate : CandidateProfile) :
    0 ≤ yearsScore o job candidate ∧ yearsScore o job candidate ≤ 100 :=
  yearsScoreFrom_bounds _ _

theorem _calculate_experience_relevance_bounds (o : Oracle) (job : ParsedJobDescription)
    (candidate : CandidateProfile)
    (hrel : ∀ j c, 0 ≤ o.relevance j c ∧ o.relevance j c ≤ 100) :
    0 ≤ _calculate_experience_relevance o job candidate ∧
      _calculate_experience_relevance o job candidate ≤ 100 := by
  unfold _calculate_experience_relevance
  split_ifs
  · constructor <;> norm_num
  · exact hrel job candidate

theorem recencyFromGap_bounds (months_gap : ℚ) :
    0 ≤ recencyFromGap months_gap ∧ recencyFromGap months_gap ≤ 100 := by
  unfold recencyFromGap
  split_ifs with h3 h6 h12
  · constructor <;> norm_num
  · constructor <;> norm_num
  · constructor <;> norm_num
  · have h12' : (12 : ℚ) ≤ months_gap := not_lt.mp h12
    constructor
    · exact le_trans (by norm_num) (le_max_left 30 _)
    · exact max_le (by norm_num) (by linarith)

theorem recencyFromMostRecent_bounds (o : Oracle) (od : Option Date) :
    0 ≤ recencyFromMostRecent o od ∧ recencyFromMostRecent o od ≤ 100 := by
  cases od with
  | none => simp only [recencyFromMostRecent]; constructor <;> norm_num
  | some d => exact recencyFromGap_bounds _

theorem _calculate_experience_recency_bounds (o : Oracle) (candidate : CandidateProfile) :
    0 ≤ _calculate_experience_recency o candidate ∧
      _calculate_experience_recency o candidate ≤ 100 := by
  unfold _calculate_experience_recency
  split_ifs
  · constructor <;> norm_num
  · constructor <;> norm_num
  · exact recencyFromMostRecent_bounds o (mostRecentEnd candidate)

theorem _calculate_career_progression_bounds (candidate : CandidateProfile) :
    0 ≤ _calculate_career_progression candidate ∧
      _calculate_career_progression candidate ≤ 100 := by
  unfold _calculate_career_progression
  split_ifs
  · constructor <;> norm_num
  · constructor
    · exact le_min (by positivity) (by norm_num)
    · exact min_le_right _ _

theorem experienceRawScore_bounds (o : Oracle) (job : ParsedJobDescription)
    (candidate : CandidateProfile)
    (hrel : ∀ j c, 0 ≤ o.relevance j c ∧ o.relevance j c ≤ 100) :
    0 ≤ experienceRawScore o job candidate ∧ experienceRawScore o job candidate ≤ 100 := by
  obtain ⟨hy0, hy1⟩ := yearsScore_bounds o job candidate
  obtain ⟨hr0, hr1⟩ := _calculate_experience_relevance_bounds o job candidate hrel
  obtain ⟨hc0, hc1⟩ := _calculate_experience_recency_bounds o candidate
  obtain ⟨hp0, hp1⟩ := _calculate_career_progression_bounds candidate
  unfold experienceRawScore
  constructor <;> nlinarith

theorem levelScoreOf_bounds (edu : EducationRequirement) (ol : Option EducationLevel) :
    0 ≤ levelScoreOf edu ol ∧ levelScoreOf edu ol ≤ 100 := by
  cases ol with
  | some cl =>
    simp only [levelScoreOf]
    split_ifs with hle
    · constructor <;> norm_num
    · have hgt : (education_hierarchy cl : ℚ) < (education_hierarchy edu.level : ℚ) := by
        exact_mod_cast not_le.mp hle
      constructor
      · exact le_max_left 0 _
      · exact max_le (by norm_num) (by linarith)
  | none =>
    simp only [levelScoreOf]
    split_ifs
    · constructor <;> norm_num
    · constructor <;> norm_num

theorem educationLevelScore_bounds (edu : EducationRequirement)
    (candidate : CandidateProfile) :
    0 ≤ educationLevelScore edu candidate ∧ educationLevelScore edu candidate ≤ 100 :=
  levelScoreOf_bounds edu _

theorem _score_education_field_bounds (fields : List String) (education : List Education) :
    0 ≤ _score_education_field fields education ∧
      _score_education_field fields education ≤ 100 := by
  unfold _score_education_field
  split_ifs
  · constructor <;> norm_num
  · constructor <;> norm_num
  · constructor <;> norm_num

theorem educationRawScore_bounds (job : ParsedJobDescription)
    (candidate : CandidateProfile) :
    0 ≤ educationRawScore job candidate ∧ educationRawScore job candidate ≤ 100 := by
  unfold educationRawScore
  cases job.education with
  | none => simp only [educationRawFrom]; constructor <;> norm_num
  | some edu =>
    simp only [educationRawFrom]
    obtain ⟨hl0, hl1⟩ := educationLevelScore_bounds edu candidate
    obtain ⟨hf0, hf1⟩ := _score_education_field_bounds edu.fields candidate.education
    constructor <;> nlinarith

theorem industryRawScore_bounds (job : ParsedJobDescription)
    (candidate : CandidateProfile) :
    0 ≤ industryRawScore job candidate ∧ industryRawScore job candidate ≤ 100 := by
  unfold industryRawScore
  split_ifs with h
  · constructor <;> norm_num
  · have hlen : (0 : ℚ) < (job.industry_experience.length : ℚ) :=
      length_pos_of_not_isEmpty h
    have hle : ((job.industry_experience.filter fun req =>
        (_extract_industries candidate).any fun ci =>
          strContains (lowerStr ci) (lowerStr req)).length : ℚ) ≤
        (job.industry_experience.length : ℚ) := by
      exact_mod_cast List.length_filter_le _ _
    have hdiv : ((job.industry_experience.filter fun req =>
        (_extract_industries candidate).any fun ci =>
          strContains (lowerStr ci) (lowerStr req)).length : ℚ) /
        (job.industry_experience.length : ℚ) ≤ 1 := by
      rw [div_le_one hlen]
      exact hle
    have hdiv0 : 0 ≤ ((job.industry_experience.filter fun req =>
        (_extract_industries candidate).any fun ci =>
          strContains (lowerStr ci) (lowerStr req)).length : ℚ) /
        (job.industry_experience.length : ℚ) := by positivity
    constructor <;> linarith

theorem amplifyConfidence_bounds (mult raw0 : ℚ) (hm : 1 ≤ mult) (h0 : 0 ≤ raw0)
    (h1 : raw0 ≤ 100) :
    0 ≤ amplifyConfidence mult raw0 ∧ amplifyConfidence mult raw0 ≤ 100 := by
  unfold amplifyConfidence
  split_ifs with he h80 h40
  · exact ⟨h0, h1⟩
  · constructor
    · exact le_min (by norm_num) (mul_nonneg h0 (by linarith))
    · exact min_le_left _ _
  · constructor
    · exact le_max_left 0 _
    · refine max_le (by norm_num) ?_
      have := div_le_self h0 hm
      linarith
  · exact ⟨h0, h1⟩

theorem locationRawScore_bounds (dist : Coordinates → Coordinates → ℚ)
    (job : ParsedJobDescription) (candidate : CandidateProfile)
    (hd : ∀ a b, 0 ≤ dist a b)
    (hmult : ∀ loc, job.location = some loc → 1 ≤ loc.location_weight_multiplier) :
    0 ≤ locationRawScore dist job candidate ∧ locationRawScore dist job candidate ≤ 100 := by
  unfold locationRawScore
  cases heq : job.location with
  | none => simp only [locationRawFrom]; constructor <;> norm_num
  | some loc =>
    simp only [locationRawFrom]
    obtain ⟨hc0, hc1⟩ := match_location_conf_bounds dist candidate.location
      (loc.cities ++ loc.states ++ loc.countries) loc.remote loc.hybrid
      loc.max_distance_miles hd
    exact amplifyConfidence_bounds loc.location_weight_multiplier _ (hmult loc heq) hc0 hc1

theorem effectiveLocationWeight_nonneg (w : Weights) (job : ParsedJobDescription)
    (hw : 0 ≤ w.location_match)
    (hmult : ∀ loc, job.location = some loc → 1 ≤ loc.location_weight_multiplier) :
    0 ≤ effectiveLocationWeight w job := by
  unfold effectiveLocationWeight
  cases heq : job.location with
  | none => exact hw
  | some loc =>
    simp only [effectiveWeightFrom]
    split_ifs with h
    · exact le_min (by norm_num) (mul_nonneg hw (by linarith [hmult loc heq]))
    · exact hw

theorem trajectoryRawScore_bounds (o : Oracle) (candidate : CandidateProfile) :
    0 ≤ trajectoryRawScore o candidate ∧ trajectoryRawScore o candidate ≤ 100 := by
  unfold trajectoryRawScore
  constructor
  · refine le_min ?_ (by norm_num)
    split_ifs with h
    · norm_num
    · apply List.sum_nonneg
      intro x hx
      unfold trajectoryPoints at hx
      simp only [List.mem_append, List.mem_map, List.mem_singleton] at hx
      rcases hx with (⟨p, _, hp⟩ | hx) | hx
      · rw [← hp]
        split_ifs <;> norm_num
      · rw [hx]
        split_ifs <;> norm_num
      · rw [hx]
        split_ifs <;> norm_num
  · exact min_le_right _ _

theorem keywordRawScore_bounds (o : Oracle) (job : ParsedJobDescription)
    (candidate : CandidateProfile) :
    0 ≤ keywordRawScore o job candidate ∧ keywordRawScore o job candidate ≤ 100 := by
  unfold keywordRawScore
  split_ifs with h
  · constructor <;> norm_num
  · have hlen : (0 : ℚ) < ((o.extractKeywords job.job_description_text).length : ℚ) :=
      length_pos_of_not_isEmpty h
    have hle : (((o.extractKeywords job.job_description_text).filter fun kw =>
        strContains (lowerStr (_get_candidate_text candidate)) (lowerStr kw)).length : ℚ) ≤
        ((o.extractKeywords job.job_description_text).length : ℚ) := by
      exact_mod_cast List.length_filter_le _ _
    have hdiv : (((o.extractKeywords job.job_description_text).filter fun kw =>
        strContains (lowerStr (_get_candidate_text candidate)) (lowerStr kw)).length : ℚ) /
        ((o.extractKeywords job.job_description_text).length : ℚ) ≤ 1 := by
      rw [div_le_one hlen]
      exact hle
    have hdiv0 : 0 ≤ (((o.extractKeywords job.job_description_text).filter fun kw =>
        strContains (lowerStr (_get_candidate_text candidate)) (lowerStr kw)).length : ℚ) /
        ((o.extractKeywords job.job_description_text).length : ℚ) := by positivity
    constructor <;> linarith

theorem score_candidate_components (w : Weights) (o : Oracle)
    (dist : Coordinates → Coordinates → ℚ) (job : ParsedJobDescription)
    (candidate : CandidateProfile) (job_id : Option String) :
    (score_candidate w o dist job candidate job_id).components =
      componentsOf w o dist job candidate := rfl

theorem score_candidate_overall (w : Weights) (o : Oracle)
    (dist : Coordinates → Coordinates → ℚ) (job : ParsedJobDescription)
    (candidate : CandidateProfile) (job_id : Option String) :
    (score_candidate w o dist job candidate job_id).overall_score =
      min (((componentsOf w o dist job candidate).map fun comp =>
        comp.weighted_score).sum) 100 := rfl

/-- **C1, counterexample** — the data model does not constrain
`location_weight_multiplier`; with a multiplier of 1/10 (below 1) a
Toronto candidate against a required "Vancouver" gets country-match
confidence 30, and the ≤ 40 amplification branch divides:
30 / (1/10) = 300, a location component raw score far above 100. -/
theorem claim_C1_counterexample :
    ((score_candidate DEFAULT_WEIGHTS oracle0 dist0 jobC1 candC1 none).components.map
        ScoreComponent.raw_score)[4]? = some 300 ∧
      (score_candidate DEFAULT_WEIGHTS oracle0 dist0 jobC1 candC1 none).components.any
        (fun comp => decide (100 < comp.raw_score)) = true := by
  refine ⟨by decide, by decide⟩

/-- **C1, amended** — with non-negative weights (as the default weights
are) and a job whose `location_weight_multiplier` is at least 1 (as the
job parser always produces), every `ScoreComponent` produced by
`score_candidate` has `raw_score ∈ [0, 100]` — in particular the
location component after amplification and the skill component's
accumulated required+preferred score — and `overall_score ∈ [0, 100]`.
The relevance oracle is assumed in [0, 100] (TF-IDF cosine similarity
scaled by 100, or the 50 default) and the distance oracle non-negative
(haversine); both hold for the real computations. -/
theorem claim_C1_amended (w : Weights) (o : Oracle)
    (dist : Coordinates → Coordinates → ℚ) (job : ParsedJobDescription)
    (cand : CandidateProfile) (job_id : Option String)
    (hw : 0 ≤ w.skill_match ∧ 0 ≤ w.experience_match ∧ 0 ≤ w.education_match ∧
      0 ≤ w.industry_match ∧ 0 ≤ w.location_match ∧ 0 ≤ w.career_trajectory ∧
      0 ≤ w.keyword_density)
    (hrel : ∀ j c, 0 ≤ o.relevance j c ∧ o.relevance j c ≤ 100)
    (hdist : ∀ a b, 0 ≤ dist a b)
    (hmult : ∀ loc, job.location = some loc → 1 ≤ loc.location_weight_multiplier) :
    (score_candidate w o dist job cand job_id).components.all rawInRange = true ∧
      0 ≤ (score_candidate w o dist job cand job_id).overall_score ∧
      (score_candidate w o dist job cand job_id).overall_score ≤ 100 := by
  obtain ⟨hw1, hw2, hw3, hw4, hw5, hw6, hw7⟩ := hw
  have hskill := skillRawScore_bounds job cand
  have hexp := experienceRawScore_bounds o job cand hrel
  have hedu := educationRawScore_bounds job cand
  have hind := industryRawScore_bounds job cand
  have hloc := locationRawScore_bounds dist job cand hdist hmult
  have htraj := trajectoryRawScore_bounds o cand
  have hkw := keywordRawScore_bounds o job cand
  have heff := effectiveLocationWeight_nonneg w job hw5 hmult
  refine ⟨?_, ?_, ?_⟩
  · rw [score_candidate_components]
    unfold componentsOf _score_skills _score_experience _score_education _score_industry
      _score_location _score_career_trajectory _score_keyword_density
    simp only [List.all_cons, List.all_nil, rawInRange, Bool.and_eq_true,
      decide_eq_true_eq, Bool.and_true]
    exact ⟨⟨hskill.1, hskill.2⟩, ⟨hexp.1, hexp.2⟩, ⟨hedu.1, hedu.2⟩, ⟨hind.1, hind.2⟩,
      ⟨hloc.1, hloc.2⟩, ⟨htraj.1, htraj.2⟩, ⟨hkw.1, hkw.2⟩⟩
  · rw [score_candidate_overall]
    refine le_min ?_ (by norm_num)
    unfold componentsOf _score_skills _score_experience _score_education _score_industry
      _score_location _score_career_trajectory _score_keyword_density
    simp only [List.map_cons, List.map_nil, List.sum_cons, List.sum_nil]
    have t1 : 0 ≤ skillRawScore job cand * w.skill_match := mul_nonneg hskill.1 hw1
    have t2 : 0 ≤ experienceRawScore o job cand * w.experience_match :=
      mul_nonneg hexp.1 hw2
    have t3 : 0 ≤ educationRawScore job cand * w.education_match := mul_nonneg hedu.1 hw3
    have t4 : 0 ≤ industryRawScore job cand * w.industry_match := mul_nonneg hind.1 hw4
    have t5 : 0 ≤ locationRawScore dist job cand * effectiveLocationWeight w job :=
      mul_nonneg hloc.1 heff
    have t6 : 0 ≤ trajectoryRawScore o cand * w.career_trajectory :=
      mul_nonneg htraj.1 hw6
    have t7 : 0 ≤ keywordRawScore o job cand * w.keyword_density := mul_nonneg hkw.1 hw7
    linarith
  · rw [score_candidate_overall]
    exact min_le_right _ _

/-- Witness for C1 (amended): the default weights on a no-requirement job
and a minimal candidate satisfy all hypotheses; all seven raw scores lie
in [0, 100] and so does the overall score. -/
theorem claim_C1_amended_witness :
    (score_candidate DEFAULT_WEIGHTS oracle0 dist0 jobPlain candA none).components.all
        rawInRange = true ∧
      0 ≤ (score_candidate DEFAULT_WEIGHTS oracle0 dist0 jobPlain candA none).overall_score ∧
      (score_candidate DEFAULT_WEIGHTS oracle0 dist0 jobPlain candA none).overall_score
        ≤ 100 :=
  claim_C1_amended DEFAULT_WEIGHTS oracle0 dist0 jobPlain candA none
    (by norm_num [DEFAULT_WEIGHTS])
    (fun j c => by norm_num [oracle0])
    (fun a b => le_refl 0)
    (fun loc h => Option.noConfusion h)

end LinkedinHiring
